import Mathlib

/-!
Shallow embedding of the `mirror` compile-time reflection library
(`src/src/mirror.hh`, header variant, and `src/src/mirror.cc`, module variant).

Modelling conventions:

* A C++ class type is modelled by `CppType`: the standard type traits the
  library queries (`std::is_aggregate_v`, `std::default_initializable`,
  `std::copy_constructible`, `std::move_constructible`) are boolean fields,
  the non-static data members are a declaration-ordered list of `CppMember`,
  `byteSize` is `sizeof(T)`, and `typeId` is the identity of the type itself
  (used to model `std::same_as<T, std::remove_cvref_t<U>>`).
* `size_t` is 64 bits wide: every arithmetic operation on it is taken
  modulo `W = 2 ^ 64`, and `CHAR_BIT = 8`.
* The facts of the C++ object model and overload-resolution rules that the
  library's correctness rests on (and that a C++ compiler enforces) are
  collected in the predicate `LanguageOk` and assumed as hypotheses.
* An instance of a type is the declaration-ordered list of its member values
  (`List Value`).  A reference produced by `reflect` is modelled as the index
  of the member it aliases; reading and writing through a reference are
  `read_ref` / `write_ref` on the instance.  The reference tuple therefore
  contains no member values at all, which captures that `std::tie` copies
  nothing.
* C++ template recursion (in `bisect`) has no termination guarantee of its
  own — the compiler enforces a finite instantiation depth.  The embedding
  makes this explicit with a fuel parameter; exhausted fuel (`none`) models
  a failed compilation, and the development proves that the fuel supplied by
  `count_data_members` is never exhausted.
* A compile-time failure (an unsatisfied `requires` clause, a failing
  `static_assert`, or exhausted instantiation depth) is modelled by `none`.
-/

namespace Mirror

/-- Bits per byte on the modelled platform: the value of `CHAR_BIT`. -/
def CHAR_BIT : Nat := 8

/-- The number of values of the modelled 64-bit `size_t`; `size_t` arithmetic
is arithmetic modulo `W`. -/
def W : Nat := 2 ^ 64

/-- A non-static data member of a class type.  `typeId` is the identity of
`std::remove_cvref_t` of the member's declared type; `bitWidth` is the number
of bits of object storage the member occupies (at least 1 for every named
member, also for bit-fields). -/
structure CppMember where
  typeId : Nat
  bitWidth : Nat
deriving DecidableEq, Repr

/-- A C++ class type, as seen by the traits and the aggregate-initialization
rules that `mirror` uses. -/
structure CppType where
  /-- Identity of the type, compared by `std::same_as`. -/
  typeId : Nat
  /-- Trait `std::is_aggregate_v<T>`. -/
  is_aggregate : Bool
  /-- Trait `std::default_initializable<T>`. -/
  default_initializable : Bool
  /-- Trait `std::copy_constructible<T>`. -/
  copy_constructible : Bool
  /-- Trait `std::move_constructible<T>`. -/
  move_constructible : Bool
  /-- Whether `T` has a user-declared or inherited constructor. -/
  has_user_declared_ctor : Bool
  /-- The non-static data members, in declaration order. -/
  members : List CppMember
  /-- The value of `sizeof(T)`. -/
  byteSize : Nat
deriving DecidableEq, Repr

/-- The facts of the C++ object model that hold for every class type a C++
compiler accepts.  The development assumes them as hypotheses; a compiler
enforces them for real types. -/
structure LanguageOk (T : CppType) : Prop where
  /-- An aggregate has no user-declared or inherited constructors
  ([dcl.init.aggr]); so a type with one is not an aggregate. -/
  agg_no_user_ctor : T.has_user_declared_ctor = true → T.is_aggregate = false
  /-- The `sizeof` of a complete object type is at least 1, also for an empty
  class. -/
  size_pos : 1 ≤ T.byteSize
  /-- Every named non-static data member occupies at least one bit of
  storage. -/
  member_bit_pos : ∀ m ∈ T.members, 1 ≤ m.bitWidth
  /-- The members' storage fits in the object representation:
  `sizeof(T) * CHAR_BIT` bits. -/
  members_fit : (T.members.map CppMember.bitWidth).sum ≤ T.byteSize * CHAR_BIT
  /-- A class cannot contain a non-static data member of its own type by
  value (the type is incomplete at that point), so a member whose
  `remove_cvref`-stripped type is `T` itself could only be a reference
  member `T&`; a type with a reference member is not default-initializable.
  Hence a default-initializable type has no member whose stripped type is
  `T`. -/
  no_self_member :
    T.default_initializable = true → ∀ m ∈ T.members, m.typeId ≠ T.typeId
  /-- Object sizes on the modelled platform are small enough that
  `sizeof(T) * CHAR_BIT` does not wrap around `size_t` (the source's
  `static_assert` in `count_data_members` double-checks exactly this
  product). -/
  size_no_overflow : T.byteSize * CHAR_BIT < W

/-- The value stored in one member of an instance (abstract). -/
abbrev Value := Nat

/-- From `src/src/mirror.hh` lines 23-26 / `src/src/mirror.cc` lines 23-26: the
`reflexible` concept. -/
def reflexible (T : CppType) : Bool :=
  (T.is_aggregate && T.default_initializable) &&
    (T.copy_constructible || T.move_constructible)

/-- From `src/src/mirror.hh` lines 37-42: `universal<T, I>` has a conversion
operator to `U` constrained by `!std::same_as<T, std::remove_cvref_t<U>>`,
so a probe converts to a target type exactly when the stripped target type
is not `T` itself.  (The slot index `I` does not influence the conversion.) -/
def universal_converts_to (T : CppType) (u : Nat) : Bool :=
  decide (u ≠ T.typeId)

/-- From `src/src/mirror.hh` lines 47-50: the concept
`constructible_from<T, Indices...>`, i.e. whether
`T{declval<universal<T, Indices>>()...}` is well-formed.  For an aggregate
`T`, aggregate initialization from `k` probes is well-formed exactly when
`k` does not exceed the member count and each of the first `k` members can
be initialized from its probe, i.e. the probe converts to the member's type
([dcl.init.aggr]; each member here consumes exactly one initializer).  The
remaining members are initialized from empty initializers, which the
`default_initializable` requirement of `reflexible` accounts for. -/
def constructible_from (T : CppType) (indices : List Nat) : Bool :=
  T.is_aggregate && decide (indices.length ≤ T.members.length) &&
    (T.members.take indices.length).all fun m => universal_converts_to T m.typeId

/-- From `src/src/mirror.hh` lines 56-61: `is_constructible<T, N>` expands
`std::make_index_sequence<N>` (the index list `0, …, N-1`, modelled by
`List.range N`) into `constructible_from<T, Indices...>`. -/
def is_constructible (T : CppType) (N : Nat) : Bool :=
  constructible_from T (List.range N)

/-- From `src/src/mirror.hh` line 66: `median<L, R>` on `size_t`.  The two inner
additions act on values that are at most `W/2 - 1 + W/2 - 1` and `3`
respectively, so only the final sum needs (and gets) an explicit reduction;
the outer `% W` makes the modelled `size_t` wraparound explicit. -/
def median (L R : Nat) : Nat :=
  ((L / 2 + R / 2) % W + (1 + L % 2 + R % 2) / 2) % W

/-- Decrement `M - 1` on `size_t`: subtraction of 1 modulo `W` (wraps at 0). -/
def size_sub_one (m : Nat) : Nat :=
  (m + (W - 1)) % W

/-- From `src/src/mirror.hh` lines 69-81: the compile-time binary search
`bisect<T, L, M, R>`.  The fuel parameter models the compiler's finite
template-instantiation depth: `none` is the compile-time failure of
exceeding it. -/
def bisect (T : CppType) : Nat → Nat → Nat → Nat → Option Nat
  | 0, _, _, _ => none
  | fuel + 1, L, M, R =>
    if L = R then some L
    else if is_constructible T M then
      bisect T fuel M (median M R) R
    else
      bisect T fuel L (median L (size_sub_one M)) (size_sub_one M)

/-- From `src/src/mirror.hh` lines 84-94: `count_data_members<T>()`.  The upper
bound is `sizeof(T) * CHAR_BIT` (on `size_t`, hence `% W`); the
`static_assert(bit_size / sizeof(T) == CHAR_BIT)` guards against the product
wrapping and is modelled as a compile failure (`none`) when it does not hold.
The fuel `bit_size + 1` exceeds the width of the initial search interval,
which (as proved below) bounds the recursion depth of `bisect`. -/
def count_data_members (T : CppType) : Option Nat :=
  let bit_size := T.byteSize * CHAR_BIT % W
  if bit_size / T.byteSize = CHAR_BIT then
    bisect T (bit_size + 1) 0 (median 0 bit_size) bit_size
  else
    none

/-- From `src/src/mirror.hh` lines 99-100: `data_member_count<T>`, constrained to
`reflexible` types (using it on any other type fails to compile: `none`). -/
def data_member_count (T : CppType) : Option Nat :=
  if reflexible T then count_data_members T else none

/-- Reading the member a reference aliases: a reference is the index of the
member it refers to inside the instance. -/
def read_ref (x : List Value) (r : Nat) : Value :=
  x.getD r 0

/-- Writing a value through a reference mutates exactly the aliased member of
the instance. -/
def write_ref (x : List Value) (r : Nat) (v : Value) : List Value :=
  x.set r v

/-- From `src/src/mirror.cc` lines 101-358: the branch table of the module
variant's `reflect`.  The branch for member count `n` destructures the
instance with a structured binding of exactly `n` names, bound to the
members in declaration order, and `std::tie`s those bindings in the same
order; in the reference-as-member-index model that branch is the index list
`0, …, n-1`.  A count no branch matches is a compile failure (`none`). -/
def reflect_branches_cc (n : Nat) : Option (List Nat) :=
  if n = 0 then some []
  else if n = 1 then some [0]
  else if n = 2 then some [0, 1]
  else if n = 3 then some [0, 1, 2]
  else if n = 4 then some [0, 1, 2, 3]
  else if n = 5 then some [0, 1, 2, 3, 4]
  else if n = 6 then some [0, 1, 2, 3, 4, 5]
  else if n = 7 then some [0, 1, 2, 3, 4, 5, 6]
  else if n = 8 then some [0, 1, 2, 3, 4, 5, 6, 7]
  else if n = 9 then some [0, 1, 2, 3, 4, 5, 6, 7, 8]
  else if n = 10 then some [0, 1, 2, 3, 4, 5, 6, 7, 8, 9]
  else if n = 11 then some [0, 1, 2, 3, 4, 5, 6, 7, 8, 9, 10]
  else if n = 12 then some [0, 1, 2, 3, 4, 5, 6, 7, 8, 9, 10, 11]
  else if n = 13 then some [0, 1, 2, 3, 4, 5, 6, 7, 8, 9, 10, 11, 12]
  else if n = 14 then some [0, 1, 2, 3, 4, 5, 6, 7, 8, 9, 10, 11, 12, 13]
  else if n = 15 then some [0, 1, 2, 3, 4, 5, 6, 7, 8, 9, 10, 11, 12, 13, 14]
  else if n = 16 then some [0, 1, 2, 3, 4, 5, 6, 7, 8, 9, 10, 11, 12, 13, 14, 15]
  else if n = 17 then some [0, 1, 2, 3, 4, 5, 6, 7, 8, 9, 10, 11, 12, 13, 14, 15, 16]
  else if n = 18 then some [0, 1, 2, 3, 4, 5, 6, 7, 8, 9, 10, 11, 12, 13, 14, 15, 16, 17]
  else if n = 19 then some [0, 1, 2, 3, 4, 5, 6, 7, 8, 9, 10, 11, 12, 13, 14, 15, 16, 17, 18]
  else if n = 20 then some [0, 1, 2, 3, 4, 5, 6, 7, 8, 9, 10, 11, 12, 13, 14, 15, 16, 17, 18, 19]
  else if n = 21 then some [0, 1, 2, 3, 4, 5, 6, 7, 8, 9, 10, 11, 12, 13, 14, 15, 16, 17, 18, 19, 20]
  else if n = 22 then some [0, 1, 2, 3, 4, 5, 6, 7, 8, 9, 10, 11, 12, 13, 14, 15, 16, 17, 18, 19, 20, 21]
  else if n = 23 then some [0, 1, 2, 3, 4, 5, 6, 7, 8, 9, 10, 11, 12, 13, 14, 15, 16, 17, 18, 19, 20, 21, 22]
  else if n = 24 then some [0, 1, 2, 3, 4, 5, 6, 7, 8, 9, 10, 11, 12, 13, 14, 15, 16, 17, 18, 19, 20, 21, 22, 23]
  else if n = 25 then some [0, 1, 2, 3, 4, 5, 6, 7, 8, 9, 10, 11, 12, 13, 14, 15, 16, 17, 18, 19, 20, 21, 22, 23, 24]
  else if n = 26 then some [0, 1, 2, 3, 4, 5, 6, 7, 8, 9, 10, 11, 12, 13, 14, 15, 16, 17, 18, 19, 20, 21, 22, 23, 24, 25]
  else if n = 27 then some [0, 1, 2, 3, 4, 5, 6, 7, 8, 9, 10, 11, 12, 13, 14, 15, 16, 17, 18, 19, 20, 21, 22, 23, 24, 25, 26]
  else if n = 28 then some [0, 1, 2, 3, 4, 5, 6, 7, 8, 9, 10, 11, 12, 13, 14, 15, 16, 17, 18, 19, 20, 21, 22, 23, 24, 25, 26, 27]
  else if n = 29 then some [0, 1, 2, 3, 4, 5, 6, 7, 8, 9, 10, 11, 12, 13, 14, 15, 16, 17, 18, 19, 20, 21, 22, 23, 24, 25, 26, 27, 28]
  else if n = 30 then some [0, 1, 2, 3, 4, 5, 6, 7, 8, 9, 10, 11, 12, 13, 14, 15, 16, 17, 18, 19, 20, 21, 22, 23, 24, 25, 26, 27, 28, 29]
  else if n = 31 then some [0, 1, 2, 3, 4, 5, 6, 7, 8, 9, 10, 11, 12, 13, 14, 15, 16, 17, 18, 19, 20, 21, 22, 23, 24, 25, 26, 27, 28, 29, 30]
  else if n = 32 then some [0, 1, 2, 3, 4, 5, 6, 7, 8, 9, 10, 11, 12, 13, 14, 15, 16, 17, 18, 19, 20, 21, 22, 23, 24, 25, 26, 27, 28, 29, 30, 31]
  else none

set_option maxRecDepth 8192 in
/-- From `src/src/mirror.hh` lines 110-2091: the branch table of the header
variant's `reflect`, one branch per member count from 0 to 127, each
destructuring the instance into that many declaration-ordered bindings and
tying them in the same order. -/
def reflect_branches_hh (n : Nat) : Option (List Nat) :=
  if n = 0 then some []
  else if n = 1 then some [0]
  else if n = 2 then some [0, 1]
  else if n = 3 then some [0, 1, 2]
  else if n = 4 then some [0, 1, 2, 3]
  else if n = 5 then some [0, 1, 2, 3, 4]
  else if n = 6 then some [0, 1, 2, 3, 4, 5]
  else if n = 7 then some [0, 1, 2, 3, 4, 5, 6]
  else if n = 8 then some [0, 1, 2, 3, 4, 5, 6, 7]
  else if n = 9 then some [0, 1, 2, 3, 4, 5, 6, 7, 8]
  else if n = 10 then some [0, 1, 2, 3, 4, 5, 6, 7, 8, 9]
  else if n = 11 then some [0, 1, 2, 3, 4, 5, 6, 7, 8, 9, 10]
  else if n = 12 then some [0, 1, 2, 3, 4, 5, 6, 7, 8, 9, 10, 11]
  else if n = 13 then some [0, 1, 2, 3, 4, 5, 6, 7, 8, 9, 10, 11, 12]
  else if n = 14 then some [0, 1, 2, 3, 4, 5, 6, 7, 8, 9, 10, 11, 12, 13]
  else if n = 15 then some [0, 1, 2, 3, 4, 5, 6, 7, 8, 9, 10, 11, 12, 13, 14]
  else if n = 16 then some [0, 1, 2, 3, 4, 5, 6, 7, 8, 9, 10, 11, 12, 13, 14, 15]
  else if n = 17 then some [0, 1, 2, 3, 4, 5, 6, 7, 8, 9, 10, 11, 12, 13, 14, 15, 16]
  else if n = 18 then some [0, 1, 2, 3, 4, 5, 6, 7, 8, 9, 10, 11, 12, 13, 14, 15, 16, 17]
  else if n = 19 then some [0, 1, 2, 3, 4, 5, 6, 7, 8, 9, 10, 11, 12, 13, 14, 15, 16, 17, 18]
  else if n = 20 then some [0, 1, 2, 3, 4, 5, 6, 7, 8, 9, 10, 11, 12, 13, 14, 15, 16, 17, 18, 19]
  else if n = 21 then some [0, 1, 2, 3, 4, 5, 6, 7, 8, 9, 10, 11, 12, 13, 14, 15, 16, 17, 18, 19, 20]
  else if n = 22 then some [0, 1, 2, 3, 4, 5, 6, 7, 8, 9, 10, 11, 12, 13, 14, 15, 16, 17, 18, 19, 20, 21]
  else if n = 23 then some [0, 1, 2, 3, 4, 5, 6, 7, 8, 9, 10, 11, 12, 13, 14, 15, 16, 17, 18, 19, 20, 21, 22]
  else if n = 24 then some [0, 1, 2, 3, 4, 5, 6, 7, 8, 9, 10, 11, 12, 13, 14, 15, 16, 17, 18, 19, 20, 21, 22, 23]
  else if n = 25 then some [0, 1, 2, 3, 4, 5, 6, 7, 8, 9, 10, 11, 12, 13, 14, 15, 16, 17, 18, 19, 20, 21, 22, 23, 24]
  else if n = 26 then some [0, 1, 2, 3, 4, 5, 6, 7, 8, 9, 10, 11, 12, 13, 14, 15, 16, 17, 18, 19, 20, 21, 22, 23, 24, 25]
  else if n = 27 then some [0, 1, 2, 3, 4, 5, 6, 7, 8, 9, 10, 11, 12, 13, 14, 15, 16, 17, 18, 19, 20, 21, 22, 23, 24, 25, 26]
  else if n = 28 then some [0, 1, 2, 3, 4, 5, 6, 7, 8, 9, 10, 11, 12, 13, 14, 15, 16, 17, 18, 19, 20, 21, 22, 23, 24, 25, 26, 27]
  else if n = 29 then some [0, 1, 2, 3, 4, 5, 6, 7, 8, 9, 10, 11, 12, 13, 14, 15, 16, 17, 18, 19, 20, 21, 22, 23, 24, 25, 26, 27, 28]
  else if n = 30 then some [0, 1, 2, 3, 4, 5, 6, 7, 8, 9, 10, 11, 12, 13, 14, 15, 16, 17, 18, 19, 20, 21, 22, 23, 24, 25, 26, 27, 28, 29]
  else if n = 31 then some [0, 1, 2, 3, 4, 5, 6, 7, 8, 9, 10, 11, 12, 13, 14, 15, 16, 17, 18, 19, 20, 21, 22, 23, 24, 25, 26, 27, 28, 29, 30]
  else if n = 32 then some [0, 1, 2, 3, 4, 5, 6, 7, 8, 9, 10, 11, 12, 13, 14, 15, 16, 17, 18, 19, 20, 21, 22, 23, 24, 25, 26, 27, 28, 29, 30, 31]
  else if n = 33 then some [0, 1, 2, 3, 4, 5, 6, 7, 8, 9, 10, 11, 12, 13, 14, 15, 16, 17, 18, 19, 20, 21, 22, 23, 24, 25, 26, 27, 28, 29, 30, 31, 32]
  else if n = 34 then some [0, 1, 2, 3, 4, 5, 6, 7, 8, 9, 10, 11, 12, 13, 14, 15, 16, 17, 18, 19, 20, 21, 22, 23, 24, 25, 26, 27, 28, 29, 30, 31, 32, 33]
  else if n = 35 then some [0, 1, 2, 3, 4, 5, 6, 7, 8, 9, 10, 11, 12, 13, 14, 15, 16, 17, 18, 19, 20, 21, 22, 23, 24, 25, 26, 27, 28, 29, 30, 31, 32, 33, 34]
  else if n = 36 then some [0, 1, 2, 3, 4, 5, 6, 7, 8, 9, 10, 11, 12, 13, 14, 15, 16, 17, 18, 19, 20, 21, 22, 23, 24, 25, 26, 27, 28, 29, 30, 31, 32, 33, 34, 35]
  else if n = 37 then some [0, 1, 2, 3, 4, 5, 6, 7, 8, 9, 10, 11, 12, 13, 14, 15, 16, 17, 18, 19, 20, 21, 22, 23, 24, 25, 26, 27, 28, 29, 30, 31, 32, 33, 34, 35, 36]
  else if n = 38 then some [0, 1, 2, 3, 4, 5, 6, 7, 8, 9, 10, 11, 12, 13, 14, 15, 16, 17, 18, 19, 20, 21, 22, 23, 24, 25, 26, 27, 28, 29, 30, 31, 32, 33, 34, 35, 36, 37]
  else if n = 39 then some [0, 1, 2, 3, 4, 5, 6, 7, 8, 9, 10, 11, 12, 13, 14, 15, 16, 17, 18, 19, 20, 21, 22, 23, 24, 25, 26, 27, 28, 29, 30, 31, 32, 33, 34, 35, 36, 37, 38]
  else if n = 40 then some [0, 1, 2, 3, 4, 5, 6, 7, 8, 9, 10, 11, 12, 13, 14, 15, 16, 17, 18, 19, 20, 21, 22, 23, 24, 25, 26, 27, 28, 29, 30, 31, 32, 33, 34, 35, 36, 37, 38, 39]
  else if n = 41 then some [0, 1, 2, 3, 4, 5, 6, 7, 8, 9, 10, 11, 12, 13, 14, 15, 16, 17, 18, 19, 20, 21, 22, 23, 24, 25, 26, 27, 28, 29, 30, 31, 32, 33, 34, 35, 36, 37, 38, 39, 40]
  else if n = 42 then some [0, 1, 2, 3, 4, 5, 6, 7, 8, 9, 10, 11, 12, 13, 14, 15, 16, 17, 18, 19, 20, 21, 22, 23, 24, 25, 26, 27, 28, 29, 30, 31, 32, 33, 34, 35, 36, 37, 38, 39, 40, 41]
  else if n = 43 then some [0, 1, 2, 3, 4, 5, 6, 7, 8, 9, 10, 11, 12, 13, 14, 15, 16, 17, 18, 19, 20, 21, 22, 23, 24, 25, 26, 27, 28, 29, 30, 31, 32, 33, 34, 35, 36, 37, 38, 39, 40, 41, 42]
  else if n = 44 then some [0, 1, 2, 3, 4, 5, 6, 7, 8, 9, 10, 11, 12, 13, 14, 15, 16, 17, 18, 19, 20, 21, 22, 23, 24, 25, 26, 27, 28, 29, 30, 31, 32, 33, 34, 35, 36, 37, 38, 39, 40, 41, 42, 43]
  else if n = 45 then some [0, 1, 2, 3, 4, 5, 6, 7, 8, 9, 10, 11, 12, 13, 14, 15, 16, 17, 18, 19, 20, 21, 22, 23, 24, 25, 26, 27, 28, 29, 30, 31, 32, 33, 34, 35, 36, 37, 38, 39, 40, 41, 42, 43, 44]
  else if n = 46 then some [0, 1, 2, 3, 4, 5, 6, 7, 8, 9, 10, 11, 12, 13, 14, 15, 16, 17, 18, 19, 20, 21, 22, 23, 24, 25, 26, 27, 28, 29, 30, 31, 32, 33, 34, 35, 36, 37, 38, 39, 40, 41, 42, 43, 44, 45]
  else if n = 47 then some [0, 1, 2, 3, 4, 5, 6, 7, 8, 9, 10, 11, 12, 13, 14, 15, 16, 17, 18, 19, 20, 21, 22, 23, 24, 25, 26, 27, 28, 29, 30, 31, 32, 33, 34, 35, 36, 37, 38, 39, 40, 41, 42, 43, 44, 45, 46]
  else if n = 48 then some [0, 1, 2, 3, 4, 5, 6, 7, 8, 9, 10, 11, 12, 13, 14, 15, 16, 17, 18, 19, 20, 21, 22, 23, 24, 25, 26, 27, 28, 29, 30, 31, 32, 33, 34, 35, 36, 37, 38, 39, 40, 41, 42, 43, 44, 45, 46, 47]
  else if n = 49 then some [0, 1, 2, 3, 4, 5, 6, 7, 8, 9, 10, 11, 12, 13, 14, 15, 16, 17, 18, 19, 20, 21, 22, 23, 24, 25, 26, 27, 28, 29, 30, 31, 32, 33, 34, 35, 36, 37, 38, 39, 40, 41, 42, 43, 44, 45, 46, 47, 48]
  else if n = 50 then some [0, 1, 2, 3, 4, 5, 6, 7, 8, 9, 10, 11, 12, 13, 14, 15, 16, 17, 18, 19, 20, 21, 22, 23, 24, 25, 26, 27, 28, 29, 30, 31, 32, 33, 34, 35, 36, 37, 38, 39, 40, 41, 42, 43, 44, 45, 46, 47, 48, 49]
  else if n = 51 then some [0, 1, 2, 3, 4, 5, 6, 7, 8, 9, 10, 11, 12, 13, 14, 15, 16, 17, 18, 19, 20, 21, 22, 23, 24, 25, 26, 27, 28, 29, 30, 31, 32, 33, 34, 35, 36, 37, 38, 39, 40, 41, 42, 43, 44, 45, 46, 47, 48, 49, 50]
  else if n = 52 then some [0, 1, 2, 3, 4, 5, 6, 7, 8, 9, 10, 11, 12, 13, 14, 15, 16, 17, 18, 19, 20, 21, 22, 23, 24, 25, 26, 27, 28, 29, 30, 31, 32, 33, 34, 35, 36, 37, 38, 39, 40, 41, 42, 43, 44, 45, 46, 47, 48, 49, 50, 51]
  else if n = 53 then some [0, 1, 2, 3, 4, 5, 6, 7, 8, 9, 10, 11, 12, 13, 14, 15, 16, 17, 18, 19, 20, 21, 22, 23, 24, 25, 26, 27, 28, 29, 30, 31, 32, 33, 34, 35, 36, 37, 38, 39, 40, 41, 42, 43, 44, 45, 46, 47, 48, 49, 50, 51, 52]
  else if n = 54 then some [0, 1, 2, 3, 4, 5, 6, 7, 8, 9, 10, 11, 12, 13, 14, 15, 16, 17, 18, 19, 20, 21, 22, 23, 24, 25, 26, 27, 28, 29, 30, 31, 32, 33, 34, 35, 36, 37, 38, 39, 40, 41, 42, 43, 44, 45, 46, 47, 48, 49, 50, 51, 52, 53]
  else if n = 55 then some [0, 1, 2, 3, 4, 5, 6, 7, 8, 9, 10, 11, 12, 13, 14, 15, 16, 17, 18, 19, 20, 21, 22, 23, 24, 25, 26, 27, 28, 29, 30, 31, 32, 33, 34, 35, 36, 37, 38, 39, 40, 41, 42, 43, 44, 45, 46, 47, 48, 49, 50, 51, 52, 53, 54]
  else if n = 56 then some [0, 1, 2, 3, 4, 5, 6, 7, 8, 9, 10, 11, 12, 13, 14, 15, 16, 17, 18, 19, 20, 21, 22, 23, 24, 25, 26, 27, 28, 29, 30, 31, 32, 33, 34, 35, 36, 37, 38, 39, 40, 41, 42, 43, 44, 45, 46, 47, 48, 49, 50, 51, 52, 53, 54, 55]
  else if n = 57 then some [0, 1, 2, 3, 4, 5, 6, 7, 8, 9, 10, 11, 12, 13, 14, 15, 16, 17, 18, 19, 20, 21, 22, 23, 24, 25, 26, 27, 28, 29, 30, 31, 32, 33, 34, 35, 36, 37, 38, 39, 40, 41, 42, 43, 44, 45, 46, 47, 48, 49, 50, 51, 52, 53, 54, 55, 56]
  else if n = 58 then some [0, 1, 2, 3, 4, 5, 6, 7, 8, 9, 10, 11, 12, 13, 14, 15, 16, 17, 18, 19, 20, 21, 22, 23, 24, 25, 26, 27, 28, 29, 30, 31, 32, 33, 34, 35, 36, 37, 38, 39, 40, 41, 42, 43, 44, 45, 46, 47, 48, 49, 50, 51, 52, 53, 54, 55, 56, 57]
  else if n = 59 then some [0, 1, 2, 3, 4, 5, 6, 7, 8, 9, 10, 11, 12, 13, 14, 15, 16, 17, 18, 19, 20, 21, 22, 23, 24, 25, 26, 27, 28, 29, 30, 31, 32, 33, 34, 35, 36, 37, 38, 39, 40, 41, 42, 43, 44, 45, 46, 47, 48, 49, 50, 51, 52, 53, 54, 55, 56, 57, 58]
  else if n = 60 then some [0, 1, 2, 3, 4, 5, 6, 7, 8, 9, 10, 11, 12, 13, 14, 15, 16, 17, 18, 19, 20, 21, 22, 23, 24, 25, 26, 27, 28, 29, 30, 31, 32, 33, 34, 35, 36, 37, 38, 39, 40, 41, 42, 43, 44, 45, 46, 47, 48, 49, 50, 51, 52, 53, 54, 55, 56, 57, 58, 59]
  else if n = 61 then some [0, 1, 2, 3, 4, 5, 6, 7, 8, 9, 10, 11, 12, 13, 14, 15, 16, 17, 18, 19, 20, 21, 22, 23, 24, 25, 26, 27, 28, 29, 30, 31, 32, 33, 34, 35, 36, 37, 38, 39, 40, 41, 42, 43, 44, 45, 46, 47, 48, 49, 50, 51, 52, 53, 54, 55, 56, 57, 58, 59, 60]
  else if n = 62 then some [0, 1, 2, 3, 4, 5, 6, 7, 8, 9, 10, 11, 12, 13, 14, 15, 16, 17, 18, 19, 20, 21, 22, 23, 24, 25, 26, 27, 28, 29, 30, 31, 32, 33, 34, 35, 36, 37, 38, 39, 40, 41, 42, 43, 44, 45, 46, 47, 48, 49, 50, 51, 52, 53, 54, 55, 56, 57, 58, 59, 60, 61]
  else if n = 63 then some [0, 1, 2, 3, 4, 5, 6, 7, 8, 9, 10, 11, 12, 13, 14, 15, 16, 17, 18, 19, 20, 21, 22, 23, 24, 25, 26, 27, 28, 29, 30, 31, 32, 33, 34, 35, 36, 37, 38, 39, 40, 41, 42, 43, 44, 45, 46, 47, 48, 49, 50, 51, 52, 53, 54, 55, 56, 57, 58, 59, 60, 61, 62]
  else if n = 64 then some [0, 1, 2, 3, 4, 5, 6, 7, 8, 9, 10, 11, 12, 13, 14, 15, 16, 17, 18, 19, 20, 21, 22, 23, 24, 25, 26, 27, 28, 29, 30, 31, 32, 33, 34, 35, 36, 37, 38, 39, 40, 41, 42, 43, 44, 45, 46, 47, 48, 49, 50, 51, 52, 53, 54, 55, 56, 57, 58, 59, 60, 61, 62, 63]
  else if n = 65 then some [0, 1, 2, 3, 4, 5, 6, 7, 8, 9, 10, 11, 12, 13, 14, 15, 16, 17, 18, 19, 20, 21, 22, 23, 24, 25, 26, 27, 28, 29, 30, 31, 32, 33, 34, 35, 36, 37, 38, 39, 40, 41, 42, 43, 44, 45, 46, 47, 48, 49, 50, 51, 52, 53, 54, 55, 56, 57, 58, 59, 60, 61, 62, 63, 64]
  else if n = 66 then some [0, 1, 2, 3, 4, 5, 6, 7, 8, 9, 10, 11, 12, 13, 14, 15, 16, 17, 18, 19, 20, 21, 22, 23, 24, 25, 26, 27, 28, 29, 30, 31, 32, 33, 34, 35, 36, 37, 38, 39, 40, 41, 42, 43, 44, 45, 46, 47, 48, 49, 50, 51, 52, 53, 54, 55, 56, 57, 58, 59, 60, 61, 62, 63, 64, 65]
  else if n = 67 then some [0, 1, 2, 3, 4, 5, 6, 7, 8, 9, 10, 11, 12, 13, 14, 15, 16, 17, 18, 19, 20, 21, 22, 23, 24, 25, 26, 27, 28, 29, 30, 31, 32, 33, 34, 35, 36, 37, 38, 39, 40, 41, 42, 43, 44, 45, 46, 47, 48, 49, 50, 51, 52, 53, 54, 55, 56, 57, 58, 59, 60, 61, 62, 63, 64, 65, 66]
  else if n = 68 then some [0, 1, 2, 3, 4, 5, 6, 7, 8, 9, 10, 11, 12, 13, 14, 15, 16, 17, 18, 19, 20, 21, 22, 23, 24, 25, 26, 27, 28, 29, 30, 31, 32, 33, 34, 35, 36, 37, 38, 39, 40, 41, 42, 43, 44, 45, 46, 47, 48, 49, 50, 51, 52, 53, 54, 55, 56, 57, 58, 59, 60, 61, 62, 63, 64, 65, 66, 67]
  else if n = 69 then some [0, 1, 2, 3, 4, 5, 6, 7, 8, 9, 10, 11, 12, 13, 14, 15, 16, 17, 18, 19, 20, 21, 22, 23, 24, 25, 26, 27, 28, 29, 30, 31, 32, 33, 34, 35, 36, 37, 38, 39, 40, 41, 42, 43, 44, 45, 46, 47, 48, 49, 50, 51, 52, 53, 54, 55, 56, 57, 58, 59, 60, 61, 62, 63, 64, 65, 66, 67, 68]
  else if n = 70 then some [0, 1, 2, 3, 4, 5, 6, 7, 8, 9, 10, 11, 12, 13, 14, 15, 16, 17, 18, 19, 20, 21, 22, 23, 24, 25, 26, 27, 28, 29, 30, 31, 32, 33, 34, 35, 36, 37, 38, 39, 40, 41, 42, 43, 44, 45, 46, 47, 48, 49, 50, 51, 52, 53, 54, 55, 56, 57, 58, 59, 60, 61, 62, 63, 64, 65, 66, 67, 68, 69]
  else if n = 71 then some [0, 1, 2, 3, 4, 5, 6, 7, 8, 9, 10, 11, 12, 13, 14, 15, 16, 17, 18, 19, 20, 21, 22, 23, 24, 25, 26, 27, 28, 29, 30, 31, 32, 33, 34, 35, 36, 37, 38, 39, 40, 41, 42, 43, 44, 45, 46, 47, 48, 49, 50, 51, 52, 53, 54, 55, 56, 57, 58, 59, 60, 61, 62, 63, 64, 65, 66, 67, 68, 69, 70]
  else if n = 72 then some [0, 1, 2, 3, 4, 5, 6, 7, 8, 9, 10, 11, 12, 13, 14, 15, 16, 17, 18, 19, 20, 21, 22, 23, 24, 25, 26, 27, 28, 29, 30, 31, 32, 33, 34, 35, 36, 37, 38, 39, 40, 41, 42, 43, 44, 45, 46, 47, 48, 49, 50, 51, 52, 53, 54, 55, 56, 57, 58, 59, 60, 61, 62, 63, 64, 65, 66, 67, 68, 69, 70, 71]
  else if n = 73 then some [0, 1, 2, 3, 4, 5, 6, 7, 8, 9, 10, 11, 12, 13, 14, 15, 16, 17, 18, 19, 20, 21, 22, 23, 24, 25, 26, 27, 28, 29, 30, 31, 32, 33, 34, 35, 36, 37, 38, 39, 40, 41, 42, 43, 44, 45, 46, 47, 48, 49, 50, 51, 52, 53, 54, 55, 56, 57, 58, 59, 60, 61, 62, 63, 64, 65, 66, 67, 68, 69, 70, 71, 72]
  else if n = 74 then some [0, 1, 2, 3, 4, 5, 6, 7, 8, 9, 10, 11, 12, 13, 14, 15, 16, 17, 18, 19, 20, 21, 22, 23, 24, 25, 26, 27, 28, 29, 30, 31, 32, 33, 34, 35, 36, 37, 38, 39, 40, 41, 42, 43, 44, 45, 46, 47, 48, 49, 50, 51, 52, 53, 54, 55, 56, 57, 58, 59, 60, 61, 62, 63, 64, 65, 66, 67, 68, 69, 70, 71, 72, 73]
  else if n = 75 then some [0, 1, 2, 3, 4, 5, 6, 7, 8, 9, 10, 11, 12, 13, 14, 15, 16, 17, 18, 19, 20, 21, 22, 23, 24, 25, 26, 27, 28, 29, 30, 31, 32, 33, 34, 35, 36, 37, 38, 39, 40, 41, 42, 43, 44, 45, 46, 47, 48, 49, 50, 51, 52, 53, 54, 55, 56, 57, 58, 59, 60, 61, 62, 63, 64, 65, 66, 67, 68, 69, 70, 71, 72, 73, 74]
  else if n = 76 then some [0, 1, 2, 3, 4, 5, 6, 7, 8, 9, 10, 11, 12, 13, 14, 15, 16, 17, 18, 19, 20, 21, 22, 23, 24, 25, 26, 27, 28, 29, 30, 31, 32, 33, 34, 35, 36, 37, 38, 39, 40, 41, 42, 43, 44, 45, 46, 47, 48, 49, 50, 51, 52, 53, 54, 55, 56, 57, 58, 59, 60, 61, 62, 63, 64, 65, 66, 67, 68, 69, 70, 71, 72, 73, 74, 75]
  else if n = 77 then some [0, 1, 2, 3, 4, 5, 6, 7, 8, 9, 10, 11, 12, 13, 14, 15, 16, 17, 18, 19, 20, 21, 22, 23, 24, 25, 26, 27, 28, 29, 30, 31, 32, 33, 34, 35, 36, 37, 38, 39, 40, 41, 42, 43, 44, 45, 46, 47, 48, 49, 50, 51, 52, 53, 54, 55, 56, 57, 58, 59, 60, 61, 62, 63, 64, 65, 66, 67, 68, 69, 70, 71, 72, 73, 74, 75, 76]
  else if n = 78 then some [0, 1, 2, 3, 4, 5, 6, 7, 8, 9, 10, 11, 12, 13, 14, 15, 16, 17, 18, 19, 20, 21, 22, 23, 24, 25, 26, 27, 28, 29, 30, 31, 32, 33, 34, 35, 36, 37, 38, 39, 40, 41, 42, 43, 44, 45, 46, 47, 48, 49, 50, 51, 52, 53, 54, 55, 56, 57, 58, 59, 60, 61, 62, 63, 64, 65, 66, 67, 68, 69, 70, 71, 72, 73, 74, 75, 76, 77]
  else if n = 79 then some [0, 1, 2, 3, 4, 5, 6, 7, 8, 9, 10, 11, 12, 13, 14, 15, 16, 17, 18, 19, 20, 21, 22, 23, 24, 25, 26, 27, 28, 29, 30, 31, 32, 33, 34, 35, 36, 37, 38, 39, 40, 41, 42, 43, 44, 45, 46, 47, 48, 49, 50, 51, 52, 53, 54, 55, 56, 57, 58, 59, 60, 61, 62, 63, 64, 65, 66, 67, 68, 69, 70, 71, 72, 73, 74, 75, 76, 77, 78]
  else if n = 80 then some [0, 1, 2, 3, 4, 5, 6, 7, 8, 9, 10, 11, 12, 13, 14, 15, 16, 17, 18, 19, 20, 21, 22, 23, 24, 25, 26, 27, 28, 29, 30, 31, 32, 33, 34, 35, 36, 37, 38, 39, 40, 41, 42, 43, 44, 45, 46, 47, 48, 49, 50, 51, 52, 53, 54, 55, 56, 57, 58, 59, 60, 61, 62, 63, 64, 65, 66, 67, 68, 69, 70, 71, 72, 73, 74, 75, 76, 77, 78, 79]
  else if n = 81 then some [0, 1, 2, 3, 4, 5, 6, 7, 8, 9, 10, 11, 12, 13, 14, 15, 16, 17, 18, 19, 20, 21, 22, 23, 24, 25, 26, 27, 28, 29, 30, 31, 32, 33, 34, 35, 36, 37, 38, 39, 40, 41, 42, 43, 44, 45, 46, 47, 48, 49, 50, 51, 52, 53, 54, 55, 56, 57, 58, 59, 60, 61, 62, 63, 64, 65, 66, 67, 68, 69, 70, 71, 72, 73, 74, 75, 76, 77, 78, 79, 80]
  else if n = 82 then some [0, 1, 2, 3, 4, 5, 6, 7, 8, 9, 10, 11, 12, 13, 14, 15, 16, 17, 18, 19, 20, 21, 22, 23, 24, 25, 26, 27, 28, 29, 30, 31, 32, 33, 34, 35, 36, 37, 38, 39, 40, 41, 42, 43, 44, 45, 46, 47, 48, 49, 50, 51, 52, 53, 54, 55, 56, 57, 58, 59, 60, 61, 62, 63, 64, 65, 66, 67, 68, 69, 70, 71, 72, 73, 74, 75, 76, 77, 78, 79, 80, 81]
  else if n = 83 then some [0, 1, 2, 3, 4, 5, 6, 7, 8, 9, 10, 11, 12, 13, 14, 15, 16, 17, 18, 19, 20, 21, 22, 23, 24, 25, 26, 27, 28, 29, 30, 31, 32, 33, 34, 35, 36, 37, 38, 39, 40, 41, 42, 43, 44, 45, 46, 47, 48, 49, 50, 51, 52, 53, 54, 55, 56, 57, 58, 59, 60, 61, 62, 63, 64, 65, 66, 67, 68, 69, 70, 71, 72, 73, 74, 75, 76, 77, 78, 79, 80, 81, 82]
  else if n = 84 then some [0, 1, 2, 3, 4, 5, 6, 7, 8, 9, 10, 11, 12, 13, 14, 15, 16, 17, 18, 19, 20, 21, 22, 23, 24, 25, 26, 27, 28, 29, 30, 31, 32, 33, 34, 35, 36, 37, 38, 39, 40, 41, 42, 43, 44, 45, 46, 47, 48, 49, 50, 51, 52, 53, 54, 55, 56, 57, 58, 59, 60, 61, 62, 63, 64, 65, 66, 67, 68, 69, 70, 71, 72, 73, 74, 75, 76, 77, 78, 79, 80, 81, 82, 83]
  else if n = 85 then some [0, 1, 2, 3, 4, 5, 6, 7, 8, 9, 10, 11, 12, 13, 14, 15, 16, 17, 18, 19, 20, 21, 22, 23, 24, 25, 26, 27, 28, 29, 30, 31, 32, 33, 34, 35, 36, 37, 38, 39, 40, 41, 42, 43, 44, 45, 46, 47, 48, 49, 50, 51, 52, 53, 54, 55, 56, 57, 58, 59, 60, 61, 62, 63, 64, 65, 66, 67, 68, 69, 70, 71, 72, 73, 74, 75, 76, 77, 78, 79, 80, 81, 82, 83, 84]
  else if n = 86 then some [0, 1, 2, 3, 4, 5, 6, 7, 8, 9, 10, 11, 12, 13, 14, 15, 16, 17, 18, 19, 20, 21, 22, 23, 24, 25, 26, 27, 28, 29, 30, 31, 32, 33, 34, 35, 36, 37, 38, 39, 40, 41, 42, 43, 44, 45, 46, 47, 48, 49, 50, 51, 52, 53, 54, 55, 56, 57, 58, 59, 60, 61, 62, 63, 64, 65, 66, 67, 68, 69, 70, 71, 72, 73, 74, 75, 76, 77, 78, 79, 80, 81, 82, 83, 84, 85]
  else if n = 87 then some [0, 1, 2, 3, 4, 5, 6, 7, 8, 9, 10, 11, 12, 13, 14, 15, 16, 17, 18, 19, 20, 21, 22, 23, 24, 25, 26, 27, 28, 29, 30, 31, 32, 33, 34, 35, 36, 37, 38, 39, 40, 41, 42, 43, 44, 45, 46, 47, 48, 49, 50, 51, 52, 53, 54, 55, 56, 57, 58, 59, 60, 61, 62, 63, 64, 65, 66, 67, 68, 69, 70, 71, 72, 73, 74, 75, 76, 77, 78, 79, 80, 81, 82, 83, 84, 85, 86]
  else if n = 88 then some [0, 1, 2, 3, 4, 5, 6, 7, 8, 9, 10, 11, 12, 13, 14, 15, 16, 17, 18, 19, 20, 21, 22, 23, 24, 25, 26, 27, 28, 29, 30, 31, 32, 33, 34, 35, 36, 37, 38, 39, 40, 41, 42, 43, 44, 45, 46, 47, 48, 49, 50, 51, 52, 53, 54, 55, 56, 57, 58, 59, 60, 61, 62, 63, 64, 65, 66, 67, 68, 69, 70, 71, 72, 73, 74, 75, 76, 77, 78, 79, 80, 81, 82, 83, 84, 85, 86, 87]
  else if n = 89 then some [0, 1, 2, 3, 4, 5, 6, 7, 8, 9, 10, 11, 12, 13, 14, 15, 16, 17, 18, 19, 20, 21, 22, 23, 24, 25, 26, 27, 28, 29, 30, 31, 32, 33, 34, 35, 36, 37, 38, 39, 40, 41, 42, 43, 44, 45, 46, 47, 48, 49, 50, 51, 52, 53, 54, 55, 56, 57, 58, 59, 60, 61, 62, 63, 64, 65, 66, 67, 68, 69, 70, 71, 72, 73, 74, 75, 76, 77, 78, 79, 80, 81, 82, 83, 84, 85, 86, 87, 88]
  else if n = 90 then some [0, 1, 2, 3, 4, 5, 6, 7, 8, 9, 10, 11, 12, 13, 14, 15, 16, 17, 18, 19, 20, 21, 22, 23, 24, 25, 26, 27, 28, 29, 30, 31, 32, 33, 34, 35, 36, 37, 38, 39, 40, 41, 42, 43, 44, 45, 46, 47, 48, 49, 50, 51, 52, 53, 54, 55, 56, 57, 58, 59, 60, 61, 62, 63, 64, 65, 66, 67, 68, 69, 70, 71, 72, 73, 74, 75, 76, 77, 78, 79, 80, 81, 82, 83, 84, 85, 86, 87, 88, 89]
  else if n = 91 then some [0, 1, 2, 3, 4, 5, 6, 7, 8, 9, 10, 11, 12, 13, 14, 15, 16, 17, 18, 19, 20, 21, 22, 23, 24, 25, 26, 27, 28, 29, 30, 31, 32, 33, 34, 35, 36, 37, 38, 39, 40, 41, 42, 43, 44, 45, 46, 47, 48, 49, 50, 51, 52, 53, 54, 55, 56, 57, 58, 59, 60, 61, 62, 63, 64, 65, 66, 67, 68, 69, 70, 71, 72, 73, 74, 75, 76, 77, 78, 79, 80, 81, 82, 83, 84, 85, 86, 87, 88, 89, 90]
  else if n = 92 then some [0, 1, 2, 3, 4, 5, 6, 7, 8, 9, 10, 11, 12, 13, 14, 15, 16, 17, 18, 19, 20, 21, 22, 23, 24, 25, 26, 27, 28, 29, 30, 31, 32, 33, 34, 35, 36, 37, 38, 39, 40, 41, 42, 43, 44, 45, 46, 47, 48, 49, 50, 51, 52, 53, 54, 55, 56, 57, 58, 59, 60, 61, 62, 63, 64, 65, 66, 67, 68, 69, 70, 71, 72, 73, 74, 75, 76, 77, 78, 79, 80, 81, 82, 83, 84, 85, 86, 87, 88, 89, 90, 91]
  else if n = 93 then some [0, 1, 2, 3, 4, 5, 6, 7, 8, 9, 10, 11, 12, 13, 14, 15, 16, 17, 18, 19, 20, 21, 22, 23, 24, 25, 26, 27, 28, 29, 30, 31, 32, 33, 34, 35, 36, 37, 38, 39, 40, 41, 42, 43, 44, 45, 46, 47, 48, 49, 50, 51, 52, 53, 54, 55, 56, 57, 58, 59, 60, 61, 62, 63, 64, 65, 66, 67, 68, 69, 70, 71, 72, 73, 74, 75, 76, 77, 78, 79, 80, 81, 82, 83, 84, 85, 86, 87, 88, 89, 90, 91, 92]
  else if n = 94 then some [0, 1, 2, 3, 4, 5, 6, 7, 8, 9, 10, 11, 12, 13, 14, 15, 16, 17, 18, 19, 20, 21, 22, 23, 24, 25, 26, 27, 28, 29, 30, 31, 32, 33, 34, 35, 36, 37, 38, 39, 40, 41, 42, 43, 44, 45, 46, 47, 48, 49, 50, 51, 52, 53, 54, 55, 56, 57, 58, 59, 60, 61, 62, 63, 64, 65, 66, 67, 68, 69, 70, 71, 72, 73, 74, 75, 76, 77, 78, 79, 80, 81, 82, 83, 84, 85, 86, 87, 88, 89, 90, 91, 92, 93]
  else if n = 95 then some [0, 1, 2, 3, 4, 5, 6, 7, 8, 9, 10, 11, 12, 13, 14, 15, 16, 17, 18, 19, 20, 21, 22, 23, 24, 25, 26, 27, 28, 29, 30, 31, 32, 33, 34, 35, 36, 37, 38, 39, 40, 41, 42, 43, 44, 45, 46, 47, 48, 49, 50, 51, 52, 53, 54, 55, 56, 57, 58, 59, 60, 61, 62, 63, 64, 65, 66, 67, 68, 69, 70, 71, 72, 73, 74, 75, 76, 77, 78, 79, 80, 81, 82, 83, 84, 85, 86, 87, 88, 89, 90, 91, 92, 93, 94]
  else if n = 96 then some [0, 1, 2, 3, 4, 5, 6, 7, 8, 9, 10, 11, 12, 13, 14, 15, 16, 17, 18, 19, 20, 21, 22, 23, 24, 25, 26, 27, 28, 29, 30, 31, 32, 33, 34, 35, 36, 37, 38, 39, 40, 41, 42, 43, 44, 45, 46, 47, 48, 49, 50, 51, 52, 53, 54, 55, 56, 57, 58, 59, 60, 61, 62, 63, 64, 65, 66, 67, 68, 69, 70, 71, 72, 73, 74, 75, 76, 77, 78, 79, 80, 81, 82, 83, 84, 85, 86, 87, 88, 89, 90, 91, 92, 93, 94, 95]
  else if n = 97 then some [0, 1, 2, 3, 4, 5, 6, 7, 8, 9, 10, 11, 12, 13, 14, 15, 16, 17, 18, 19, 20, 21, 22, 23, 24, 25, 26, 27, 28, 29, 30, 31, 32, 33, 34, 35, 36, 37, 38, 39, 40, 41, 42, 43, 44, 45, 46, 47, 48, 49, 50, 51, 52, 53, 54, 55, 56, 57, 58, 59, 60, 61, 62, 63, 64, 65, 66, 67, 68, 69, 70, 71, 72, 73, 74, 75, 76, 77, 78, 79, 80, 81, 82, 83, 84, 85, 86, 87, 88, 89, 90, 91, 92, 93, 94, 95, 96]
  else if n = 98 then some [0, 1, 2, 3, 4, 5, 6, 7, 8, 9, 10, 11, 12, 13, 14, 15, 16, 17, 18, 19, 20, 21, 22, 23, 24, 25, 26, 27, 28, 29, 30, 31, 32, 33, 34, 35, 36, 37, 38, 39, 40, 41, 42, 43, 44, 45, 46, 47, 48, 49, 50, 51, 52, 53, 54, 55, 56, 57, 58, 59, 60, 61, 62, 63, 64, 65, 66, 67, 68, 69, 70, 71, 72, 73, 74, 75, 76, 77, 78, 79, 80, 81, 82, 83, 84, 85, 86, 87, 88, 89, 90, 91, 92, 93, 94, 95, 96, 97]
  else if n = 99 then some [0, 1, 2, 3, 4, 5, 6, 7, 8, 9, 10, 11, 12, 13, 14, 15, 16, 17, 18, 19, 20, 21, 22, 23, 24, 25, 26, 27, 28, 29, 30, 31, 32, 33, 34, 35, 36, 37, 38, 39, 40, 41, 42, 43, 44, 45, 46, 47, 48, 49, 50, 51, 52, 53, 54, 55, 56, 57, 58, 59, 60, 61, 62, 63, 64, 65, 66, 67, 68, 69, 70, 71, 72, 73, 74, 75, 76, 77, 78, 79, 80, 81, 82, 83, 84, 85, 86, 87, 88, 89, 90, 91, 92, 93, 94, 95, 96, 97, 98]
  else if n = 100 then some [0, 1, 2, 3, 4, 5, 6, 7, 8, 9, 10, 11, 12, 13, 14, 15, 16, 17, 18, 19, 20, 21, 22, 23, 24, 25, 26, 27, 28, 29, 30, 31, 32, 33, 34, 35, 36, 37, 38, 39, 40, 41, 42, 43, 44, 45, 46, 47, 48, 49, 50, 51, 52, 53, 54, 55, 56, 57, 58, 59, 60, 61, 62, 63, 64, 65, 66, 67, 68, 69, 70, 71, 72, 73, 74, 75, 76, 77, 78, 79, 80, 81, 82, 83, 84, 85, 86, 87, 88, 89, 90, 91, 92, 93, 94, 95, 96, 97, 98, 99]
  else if n = 101 then some [0, 1, 2, 3, 4, 5, 6, 7, 8, 9, 10, 11, 12, 13, 14, 15, 16, 17, 18, 19, 20, 21, 22, 23, 24, 25, 26, 27, 28, 29, 30, 31, 32, 33, 34, 35, 36, 37, 38, 39, 40, 41, 42, 43, 44, 45, 46, 47, 48, 49, 50, 51, 52, 53, 54, 55, 56, 57, 58, 59, 60, 61, 62, 63, 64, 65, 66, 67, 68, 69, 70, 71, 72, 73, 74, 75, 76, 77, 78, 79, 80, 81, 82, 83, 84, 85, 86, 87, 88, 89, 90, 91, 92, 93, 94, 95, 96, 97, 98, 99, 100]
  else if n = 102 then some [0, 1, 2, 3, 4, 5, 6, 7, 8, 9, 10, 11, 12, 13, 14, 15, 16, 17, 18, 19, 20, 21, 22, 23, 24, 25, 26, 27, 28, 29, 30, 31, 32, 33, 34, 35, 36, 37, 38, 39, 40, 41, 42, 43, 44, 45, 46, 47, 48, 49, 50, 51, 52, 53, 54, 55, 56, 57, 58, 59, 60, 61, 62, 63, 64, 65, 66, 67, 68, 69, 70, 71, 72, 73, 74, 75, 76, 77, 78, 79, 80, 81, 82, 83, 84, 85, 86, 87, 88, 89, 90, 91, 92, 93, 94, 95, 96, 97, 98, 99, 100, 101]
  else if n = 103 then some [0, 1, 2, 3, 4, 5, 6, 7, 8, 9, 10, 11, 12, 13, 14, 15, 16, 17, 18, 19, 20, 21, 22, 23, 24, 25, 26, 27, 28, 29, 30, 31, 32, 33, 34, 35, 36, 37, 38, 39, 40, 41, 42, 43, 44, 45, 46, 47, 48, 49, 50, 51, 52, 53, 54, 55, 56, 57, 58, 59, 60, 61, 62, 63, 64, 65, 66, 67, 68, 69, 70, 71, 72, 73, 74, 75, 76, 77, 78, 79, 80, 81, 82, 83, 84, 85, 86, 87, 88, 89, 90, 91, 92, 93, 94, 95, 96, 97, 98, 99, 100, 101, 102]
  else if n = 104 then some [0, 1, 2, 3, 4, 5, 6, 7, 8, 9, 10, 11, 12, 13, 14, 15, 16, 17, 18, 19, 20, 21, 22, 23, 24, 25, 26, 27, 28, 29, 30, 31, 32, 33, 34, 35, 36, 37, 38, 39, 40, 41, 42, 43, 44, 45, 46, 47, 48, 49, 50, 51, 52, 53, 54, 55, 56, 57, 58, 59, 60, 61, 62, 63, 64, 65, 66, 67, 68, 69, 70, 71, 72, 73, 74, 75, 76, 77, 78, 79, 80, 81, 82, 83, 84, 85, 86, 87, 88, 89, 90, 91, 92, 93, 94, 95, 96, 97, 98, 99, 100, 101, 102, 103]
  else if n = 105 then some [0, 1, 2, 3, 4, 5, 6, 7, 8, 9, 10, 11, 12, 13, 14, 15, 16, 17, 18, 19, 20, 21, 22, 23, 24, 25, 26, 27, 28, 29, 30, 31, 32, 33, 34, 35, 36, 37, 38, 39, 40, 41, 42, 43, 44, 45, 46, 47, 48, 49, 50, 51, 52, 53, 54, 55, 56, 57, 58, 59, 60, 61, 62, 63, 64, 65, 66, 67, 68, 69, 70, 71, 72, 73, 74, 75, 76, 77, 78, 79, 80, 81, 82, 83, 84, 85, 86, 87, 88, 89, 90, 91, 92, 93, 94, 95, 96, 97, 98, 99, 100, 101, 102, 103, 104]
  else if n = 106 then some [0, 1, 2, 3, 4, 5, 6, 7, 8, 9, 10, 11, 12, 13, 14, 15, 16, 17, 18, 19, 20, 21, 22, 23, 24, 25, 26, 27, 28, 29, 30, 31, 32, 33, 34, 35, 36, 37, 38, 39, 40, 41, 42, 43, 44, 45, 46, 47, 48, 49, 50, 51, 52, 53, 54, 55, 56, 57, 58, 59, 60, 61, 62, 63, 64, 65, 66, 67, 68, 69, 70, 71, 72, 73, 74, 75, 76, 77, 78, 79, 80, 81, 82, 83, 84, 85, 86, 87, 88, 89, 90, 91, 92, 93, 94, 95, 96, 97, 98, 99, 100, 101, 102, 103, 104, 105]
  else if n = 107 then some [0, 1, 2, 3, 4, 5, 6, 7, 8, 9, 10, 11, 12, 13, 14, 15, 16, 17, 18, 19, 20, 21, 22, 23, 24, 25, 26, 27, 28, 29, 30, 31, 32, 33, 34, 35, 36, 37, 38, 39, 40, 41, 42, 43, 44, 45, 46, 47, 48, 49, 50, 51, 52, 53, 54, 55, 56, 57, 58, 59, 60, 61, 62, 63, 64, 65, 66, 67, 68, 69, 70, 71, 72, 73, 74, 75, 76, 77, 78, 79, 80, 81, 82, 83, 84, 85, 86, 87, 88, 89, 90, 91, 92, 93, 94, 95, 96, 97, 98, 99, 100, 101, 102, 103, 104, 105, 106]
  else if n = 108 then some [0, 1, 2, 3, 4, 5, 6, 7, 8, 9, 10, 11, 12, 13, 14, 15, 16, 17, 18, 19, 20, 21, 22, 23, 24, 25, 26, 27, 28, 29, 30, 31, 32, 33, 34, 35, 36, 37, 38, 39, 40, 41, 42, 43, 44, 45, 46, 47, 48, 49, 50, 51, 52, 53, 54, 55, 56, 57, 58, 59, 60, 61, 62, 63, 64, 65, 66, 67, 68, 69, 70, 71, 72, 73, 74, 75, 76, 77, 78, 79, 80, 81, 82, 83, 84, 85, 86, 87, 88, 89, 90, 91, 92, 93, 94, 95, 96, 97, 98, 99, 100, 101, 102, 103, 104, 105, 106, 107]
  else if n = 109 then some [0, 1, 2, 3, 4, 5, 6, 7, 8, 9, 10, 11, 12, 13, 14, 15, 16, 17, 18, 19, 20, 21, 22, 23, 24, 25, 26, 27, 28, 29, 30, 31, 32, 33, 34, 35, 36, 37, 38, 39, 40, 41, 42, 43, 44, 45, 46, 47, 48, 49, 50, 51, 52, 53, 54, 55, 56, 57, 58, 59, 60, 61, 62, 63, 64, 65, 66, 67, 68, 69, 70, 71, 72, 73, 74, 75, 76, 77, 78, 79, 80, 81, 82, 83, 84, 85, 86, 87, 88, 89, 90, 91, 92, 93, 94, 95, 96, 97, 98, 99, 100, 101, 102, 103, 104, 105, 106, 107, 108]
  else if n = 110 then some [0, 1, 2, 3, 4, 5, 6, 7, 8, 9, 10, 11, 12, 13, 14, 15, 16, 17, 18, 19, 20, 21, 22, 23, 24, 25, 26, 27, 28, 29, 30, 31, 32, 33, 34, 35, 36, 37, 38, 39, 40, 41, 42, 43, 44, 45, 46, 47, 48, 49, 50, 51, 52, 53, 54, 55, 56, 57, 58, 59, 60, 61, 62, 63, 64, 65, 66, 67, 68, 69, 70, 71, 72, 73, 74, 75, 76, 77, 78, 79, 80, 81, 82, 83, 84, 85, 86, 87, 88, 89, 90, 91, 92, 93, 94, 95, 96, 97, 98, 99, 100, 101, 102, 103, 104, 105, 106, 107, 108, 109]
  else if n = 111 then some [0, 1, 2, 3, 4, 5, 6, 7, 8, 9, 10, 11, 12, 13, 14, 15, 16, 17, 18, 19, 20, 21, 22, 23, 24, 25, 26, 27, 28, 29, 30, 31, 32, 33, 34, 35, 36, 37, 38, 39, 40, 41, 42, 43, 44, 45, 46, 47, 48, 49, 50, 51, 52, 53, 54, 55, 56, 57, 58, 59, 60, 61, 62, 63, 64, 65, 66, 67, 68, 69, 70, 71, 72, 73, 74, 75, 76, 77, 78, 79, 80, 81, 82, 83, 84, 85, 86, 87, 88, 89, 90, 91, 92, 93, 94, 95, 96, 97, 98, 99, 100, 101, 102, 103, 104, 105, 106, 107, 108, 109, 110]
  else if n = 112 then some [0, 1, 2, 3, 4, 5, 6, 7, 8, 9, 10, 11, 12, 13, 14, 15, 16, 17, 18, 19, 20, 21, 22, 23, 24, 25, 26, 27, 28, 29, 30, 31, 32, 33, 34, 35, 36, 37, 38, 39, 40, 41, 42, 43, 44, 45, 46, 47, 48, 49, 50, 51, 52, 53, 54, 55, 56, 57, 58, 59, 60, 61, 62, 63, 64, 65, 66, 67, 68, 69, 70, 71, 72, 73, 74, 75, 76, 77, 78, 79, 80, 81, 82, 83, 84, 85, 86, 87, 88, 89, 90, 91, 92, 93, 94, 95, 96, 97, 98, 99, 100, 101, 102, 103, 104, 105, 106, 107, 108, 109, 110, 111]
  else if n = 113 then some [0, 1, 2, 3, 4, 5, 6, 7, 8, 9, 10, 11, 12, 13, 14, 15, 16, 17, 18, 19, 20, 21, 22, 23, 24, 25, 26, 27, 28, 29, 30, 31, 32, 33, 34, 35, 36, 37, 38, 39, 40, 41, 42, 43, 44, 45, 46, 47, 48, 49, 50, 51, 52, 53, 54, 55, 56, 57, 58, 59, 60, 61, 62, 63, 64, 65, 66, 67, 68, 69, 70, 71, 72, 73, 74, 75, 76, 77, 78, 79, 80, 81, 82, 83, 84, 85, 86, 87, 88, 89, 90, 91, 92, 93, 94, 95, 96, 97, 98, 99, 100, 101, 102, 103, 104, 105, 106, 107, 108, 109, 110, 111, 112]
  else if n = 114 then some [0, 1, 2, 3, 4, 5, 6, 7, 8, 9, 10, 11, 12, 13, 14, 15, 16, 17, 18, 19, 20, 21, 22, 23, 24, 25, 26, 27, 28, 29, 30, 31, 32, 33, 34, 35, 36, 37, 38, 39, 40, 41, 42, 43, 44, 45, 46, 47, 48, 49, 50, 51, 52, 53, 54, 55, 56, 57, 58, 59, 60, 61, 62, 63, 64, 65, 66, 67, 68, 69, 70, 71, 72, 73, 74, 75, 76, 77, 78, 79, 80, 81, 82, 83, 84, 85, 86, 87, 88, 89, 90, 91, 92, 93, 94, 95, 96, 97, 98, 99, 100, 101, 102, 103, 104, 105, 106, 107, 108, 109, 110, 111, 112, 113]
  else if n = 115 then some [0, 1, 2, 3, 4, 5, 6, 7, 8, 9, 10, 11, 12, 13, 14, 15, 16, 17, 18, 19, 20, 21, 22, 23, 24, 25, 26, 27, 28, 29, 30, 31, 32, 33, 34, 35, 36, 37, 38, 39, 40, 41, 42, 43, 44, 45, 46, 47, 48, 49, 50, 51, 52, 53, 54, 55, 56, 57, 58, 59, 60, 61, 62, 63, 64, 65, 66, 67, 68, 69, 70, 71, 72, 73, 74, 75, 76, 77, 78, 79, 80, 81, 82, 83, 84, 85, 86, 87, 88, 89, 90, 91, 92, 93, 94, 95, 96, 97, 98, 99, 100, 101, 102, 103, 104, 105, 106, 107, 108, 109, 110, 111, 112, 113, 114]
  else if n = 116 then some [0, 1, 2, 3, 4, 5, 6, 7, 8, 9, 10, 11, 12, 13, 14, 15, 16, 17, 18, 19, 20, 21, 22, 23, 24, 25, 26, 27, 28, 29, 30, 31, 32, 33, 34, 35, 36, 37, 38, 39, 40, 41, 42, 43, 44, 45, 46, 47, 48, 49, 50, 51, 52, 53, 54, 55, 56, 57, 58, 59, 60, 61, 62, 63, 64, 65, 66, 67, 68, 69, 70, 71, 72, 73, 74, 75, 76, 77, 78, 79, 80, 81, 82, 83, 84, 85, 86, 87, 88, 89, 90, 91, 92, 93, 94, 95, 96, 97, 98, 99, 100, 101, 102, 103, 104, 105, 106, 107, 108, 109, 110, 111, 112, 113, 114, 115]
  else if n = 117 then some [0, 1, 2, 3, 4, 5, 6, 7, 8, 9, 10, 11, 12, 13, 14, 15, 16, 17, 18, 19, 20, 21, 22, 23, 24, 25, 26, 27, 28, 29, 30, 31, 32, 33, 34, 35, 36, 37, 38, 39, 40, 41, 42, 43, 44, 45, 46, 47, 48, 49, 50, 51, 52, 53, 54, 55, 56, 57, 58, 59, 60, 61, 62, 63, 64, 65, 66, 67, 68, 69, 70, 71, 72, 73, 74, 75, 76, 77, 78, 79, 80, 81, 82, 83, 84, 85, 86, 87, 88, 89, 90, 91, 92, 93, 94, 95, 96, 97, 98, 99, 100, 101, 102, 103, 104, 105, 106, 107, 108, 109, 110, 111, 112, 113, 114, 115, 116]
  else if n = 118 then some [0, 1, 2, 3, 4, 5, 6, 7, 8, 9, 10, 11, 12, 13, 14, 15, 16, 17, 18, 19, 20, 21, 22, 23, 24, 25, 26, 27, 28, 29, 30, 31, 32, 33, 34, 35, 36, 37, 38, 39, 40, 41, 42, 43, 44, 45, 46, 47, 48, 49, 50, 51, 52, 53, 54, 55, 56, 57, 58, 59, 60, 61, 62, 63, 64, 65, 66, 67, 68, 69, 70, 71, 72, 73, 74, 75, 76, 77, 78, 79, 80, 81, 82, 83, 84, 85, 86, 87, 88, 89, 90, 91, 92, 93, 94, 95, 96, 97, 98, 99, 100, 101, 102, 103, 104, 105, 106, 107, 108, 109, 110, 111, 112, 113, 114, 115, 116, 117]
  else if n = 119 then some [0, 1, 2, 3, 4, 5, 6, 7, 8, 9, 10, 11, 12, 13, 14, 15, 16, 17, 18, 19, 20, 21, 22, 23, 24, 25, 26, 27, 28, 29, 30, 31, 32, 33, 34, 35, 36, 37, 38, 39, 40, 41, 42, 43, 44, 45, 46, 47, 48, 49, 50, 51, 52, 53, 54, 55, 56, 57, 58, 59, 60, 61, 62, 63, 64, 65, 66, 67, 68, 69, 70, 71, 72, 73, 74, 75, 76, 77, 78, 79, 80, 81, 82, 83, 84, 85, 86, 87, 88, 89, 90, 91, 92, 93, 94, 95, 96, 97, 98, 99, 100, 101, 102, 103, 104, 105, 106, 107, 108, 109, 110, 111, 112, 113, 114, 115, 116, 117, 118]
  else if n = 120 then some [0, 1, 2, 3, 4, 5, 6, 7, 8, 9, 10, 11, 12, 13, 14, 15, 16, 17, 18, 19, 20, 21, 22, 23, 24, 25, 26, 27, 28, 29, 30, 31, 32, 33, 34, 35, 36, 37, 38, 39, 40, 41, 42, 43, 44, 45, 46, 47, 48, 49, 50, 51, 52, 53, 54, 55, 56, 57, 58, 59, 60, 61, 62, 63, 64, 65, 66, 67, 68, 69, 70, 71, 72, 73, 74, 75, 76, 77, 78, 79, 80, 81, 82, 83, 84, 85, 86, 87, 88, 89, 90, 91, 92, 93, 94, 95, 96, 97, 98, 99, 100, 101, 102, 103, 104, 105, 106, 107, 108, 109, 110, 111, 112, 113, 114, 115, 116, 117, 118, 119]
  else if n = 121 then some [0, 1, 2, 3, 4, 5, 6, 7, 8, 9, 10, 11, 12, 13, 14, 15, 16, 17, 18, 19, 20, 21, 22, 23, 24, 25, 26, 27, 28, 29, 30, 31, 32, 33, 34, 35, 36, 37, 38, 39, 40, 41, 42, 43, 44, 45, 46, 47, 48, 49, 50, 51, 52, 53, 54, 55, 56, 57, 58, 59, 60, 61, 62, 63, 64, 65, 66, 67, 68, 69, 70, 71, 72, 73, 74, 75, 76, 77, 78, 79, 80, 81, 82, 83, 84, 85, 86, 87, 88, 89, 90, 91, 92, 93, 94, 95, 96, 97, 98, 99, 100, 101, 102, 103, 104, 105, 106, 107, 108, 109, 110, 111, 112, 113, 114, 115, 116, 117, 118, 119, 120]
  else if n = 122 then some [0, 1, 2, 3, 4, 5, 6, 7, 8, 9, 10, 11, 12, 13, 14, 15, 16, 17, 18, 19, 20, 21, 22, 23, 24, 25, 26, 27, 28, 29, 30, 31, 32, 33, 34, 35, 36, 37, 38, 39, 40, 41, 42, 43, 44, 45, 46, 47, 48, 49, 50, 51, 52, 53, 54, 55, 56, 57, 58, 59, 60, 61, 62, 63, 64, 65, 66, 67, 68, 69, 70, 71, 72, 73, 74, 75, 76, 77, 78, 79, 80, 81, 82, 83, 84, 85, 86, 87, 88, 89, 90, 91, 92, 93, 94, 95, 96, 97, 98, 99, 100, 101, 102, 103, 104, 105, 106, 107, 108, 109, 110, 111, 112, 113, 114, 115, 116, 117, 118, 119, 120, 121]
  else if n = 123 then some [0, 1, 2, 3, 4, 5, 6, 7, 8, 9, 10, 11, 12, 13, 14, 15, 16, 17, 18, 19, 20, 21, 22, 23, 24, 25, 26, 27, 28, 29, 30, 31, 32, 33, 34, 35, 36, 37, 38, 39, 40, 41, 42, 43, 44, 45, 46, 47, 48, 49, 50, 51, 52, 53, 54, 55, 56, 57, 58, 59, 60, 61, 62, 63, 64, 65, 66, 67, 68, 69, 70, 71, 72, 73, 74, 75, 76, 77, 78, 79, 80, 81, 82, 83, 84, 85, 86, 87, 88, 89, 90, 91, 92, 93, 94, 95, 96, 97, 98, 99, 100, 101, 102, 103, 104, 105, 106, 107, 108, 109, 110, 111, 112, 113, 114, 115, 116, 117, 118, 119, 120, 121, 122]
  else if n = 124 then some [0, 1, 2, 3, 4, 5, 6, 7, 8, 9, 10, 11, 12, 13, 14, 15, 16, 17, 18, 19, 20, 21, 22, 23, 24, 25, 26, 27, 28, 29, 30, 31, 32, 33, 34, 35, 36, 37, 38, 39, 40, 41, 42, 43, 44, 45, 46, 47, 48, 49, 50, 51, 52, 53, 54, 55, 56, 57, 58, 59, 60, 61, 62, 63, 64, 65, 66, 67, 68, 69, 70, 71, 72, 73, 74, 75, 76, 77, 78, 79, 80, 81, 82, 83, 84, 85, 86, 87, 88, 89, 90, 91, 92, 93, 94, 95, 96, 97, 98, 99, 100, 101, 102, 103, 104, 105, 106, 107, 108, 109, 110, 111, 112, 113, 114, 115, 116, 117, 118, 119, 120, 121, 122, 123]
  else if n = 125 then some [0, 1, 2, 3, 4, 5, 6, 7, 8, 9, 10, 11, 12, 13, 14, 15, 16, 17, 18, 19, 20, 21, 22, 23, 24, 25, 26, 27, 28, 29, 30, 31, 32, 33, 34, 35, 36, 37, 38, 39, 40, 41, 42, 43, 44, 45, 46, 47, 48, 49, 50, 51, 52, 53, 54, 55, 56, 57, 58, 59, 60, 61, 62, 63, 64, 65, 66, 67, 68, 69, 70, 71, 72, 73, 74, 75, 76, 77, 78, 79, 80, 81, 82, 83, 84, 85, 86, 87, 88, 89, 90, 91, 92, 93, 94, 95, 96, 97, 98, 99, 100, 101, 102, 103, 104, 105, 106, 107, 108, 109, 110, 111, 112, 113, 114, 115, 116, 117, 118, 119, 120, 121, 122, 123, 124]
  else if n = 126 then some [0, 1, 2, 3, 4, 5, 6, 7, 8, 9, 10, 11, 12, 13, 14, 15, 16, 17, 18, 19, 20, 21, 22, 23, 24, 25, 26, 27, 28, 29, 30, 31, 32, 33, 34, 35, 36, 37, 38, 39, 40, 41, 42, 43, 44, 45, 46, 47, 48, 49, 50, 51, 52, 53, 54, 55, 56, 57, 58, 59, 60, 61, 62, 63, 64, 65, 66, 67, 68, 69, 70, 71, 72, 73, 74, 75, 76, 77, 78, 79, 80, 81, 82, 83, 84, 85, 86, 87, 88, 89, 90, 91, 92, 93, 94, 95, 96, 97, 98, 99, 100, 101, 102, 103, 104, 105, 106, 107, 108, 109, 110, 111, 112, 113, 114, 115, 116, 117, 118, 119, 120, 121, 122, 123, 124, 125]
  else if n = 127 then some [0, 1, 2, 3, 4, 5, 6, 7, 8, 9, 10, 11, 12, 13, 14, 15, 16, 17, 18, 19, 20, 21, 22, 23, 24, 25, 26, 27, 28, 29, 30, 31, 32, 33, 34, 35, 36, 37, 38, 39, 40, 41, 42, 43, 44, 45, 46, 47, 48, 49, 50, 51, 52, 53, 54, 55, 56, 57, 58, 59, 60, 61, 62, 63, 64, 65, 66, 67, 68, 69, 70, 71, 72, 73, 74, 75, 76, 77, 78, 79, 80, 81, 82, 83, 84, 85, 86, 87, 88, 89, 90, 91, 92, 93, 94, 95, 96, 97, 98, 99, 100, 101, 102, 103, 104, 105, 106, 107, 108, 109, 110, 111, 112, 113, 114, 115, 116, 117, 118, 119, 120, 121, 122, 123, 124, 125, 126]
  else none

/-- From `src/src/mirror.hh` lines 107-2092: `reflect(T& x)` of the header
variant.  The `reflexible` constraint and the computation of
`data_member_count<T>` gate the call; the `requires(data_member_count<T> <=
127)` clause rejects larger counts at compile time (`none`); otherwise the
matching branch of the table produces the references into `x`. -/
def reflect_hh (T : CppType) (x : List Value) : Option (List Nat) :=
  match data_member_count T with
  | none => none
  | some n => if n ≤ 127 then reflect_branches_hh n else none

/-- From `src/src/mirror.cc` lines 101-358: `reflect(T& x)` of the module
variant, identical to the header variant except that its `requires` clause
bounds the count by 32 and its table stops at 32. -/
def reflect_cc (T : CppType) (x : List Value) : Option (List Nat) :=
  match data_member_count T with
  | none => none
  | some n => if n ≤ 32 then reflect_branches_cc n else none

/-! ### Concrete sample types (models of simple C++ structs) -/

/-- Model of `struct { int a; int b; int c; }`: an aggregate with three
32-bit members of type identity 1, `sizeof` 12. -/
def sampleT : CppType :=
  { typeId := 0, is_aggregate := true, default_initializable := true,
    copy_constructible := true, move_constructible := true,
    has_user_declared_ctor := false,
    members := [⟨1, 32⟩, ⟨1, 32⟩, ⟨1, 32⟩], byteSize := 12 }

/-- Model of the empty aggregate `struct {}`: no members, `sizeof` 1. -/
def emptyT : CppType :=
  { typeId := 2, is_aggregate := true, default_initializable := true,
    copy_constructible := true, move_constructible := true,
    has_user_declared_ctor := false, members := [], byteSize := 1 }

/-- Model of a type with a user-declared constructor, which the language
rules make a non-aggregate. -/
def ctorT : CppType :=
  { typeId := 3, is_aggregate := false, default_initializable := true,
    copy_constructible := true, move_constructible := true,
    has_user_declared_ctor := true, members := [⟨1, 32⟩], byteSize := 4 }

/-- Model of an aggregate with 33 32-bit members: accepted by the header
variant's `reflect` (ceiling 127) but rejected by the module variant's
(ceiling 32). -/
def wideT : CppType :=
  { typeId := 4, is_aggregate := true, default_initializable := true,
    copy_constructible := true, move_constructible := true,
    has_user_declared_ctor := false,
    members := List.replicate 33 ⟨1, 32⟩, byteSize := 132 }


/-! ### Helper lemmas -/

/-- The function `median` computes the ceiling of the exact average without wrapping, for
any in-range `size_t` operands. -/
lemma median_eq {L R : Nat} (hL : L < W) (hR : R < W) :
    median L R = (L + R + 1) / 2 := by
  unfold median W at *
  omega

/-- The `size_t` decrement does not wrap on positive in-range values. -/
lemma size_sub_one_eq {m : Nat} (h1 : 1 ≤ m) (h2 : m < W) :
    size_sub_one m = m - 1 := by
  unfold size_sub_one W at *
  omega

/-- Unpacking the `reflexible` concept into its three conjuncts. -/
lemma reflexible_parts {T : CppType} (hr : reflexible T = true) :
    T.is_aggregate = true ∧ T.default_initializable = true ∧
      (T.copy_constructible = true ∨ T.move_constructible = true) := by
  unfold reflexible at hr
  simp only [Bool.and_eq_true, Bool.or_eq_true] at hr
  exact ⟨hr.1.1, hr.1.2, hr.2⟩

/-- Characterization of the constructibility test on reflexible types:
`is_constructible T k` succeeds exactly when `k` does not exceed the member
count. -/
lemma is_constructible_eq {T : CppType} (hT : LanguageOk T)
    (hr : reflexible T = true) (k : Nat) :
    is_constructible T k = decide (k ≤ T.members.length) := by
  obtain ⟨hagg, hdef, -⟩ := reflexible_parts hr
  unfold is_constructible constructible_from universal_converts_to
  simp only [List.length_range, hagg, Bool.true_and]
  by_cases hk : k ≤ T.members.length
  · rw [decide_eq_true hk, Bool.true_and, List.all_eq_true]
    simp only [decide_eq_true_eq]
    intro m hm
    exact hT.no_self_member hdef m (List.take_subset _ _ hm)
  · simp [hk]

/-- A type's member count never exceeds the bit size of the type: each member
occupies at least one bit of the object representation. -/
lemma count_le_bits {T : CppType} (hT : LanguageOk T) :
    T.members.length ≤ T.byteSize * CHAR_BIT := by
  calc T.members.length = (T.members.map CppMember.bitWidth).length := by simp
    _ ≤ (T.members.map CppMember.bitWidth).sum := by
        apply List.length_le_sum_of_one_le
        intro i hi
        obtain ⟨m, hm, rfl⟩ := List.mem_map.mp hi
        exact hT.member_bit_pos m hm
    _ ≤ T.byteSize * CHAR_BIT := hT.members_fit


/-- Core correctness of the binary search: on an interval `[L, R]` that
contains the threshold `N` of the monotone constructibility test, `bisect`
invoked with midpoint `median L R` and fuel exceeding the interval width
returns `N`. -/
lemma bisect_finds {T : CppType} {N : Nat} :
    ∀ fuel L R, (∀ k, k ≤ R → is_constructible T k = decide (k ≤ N)) →
      L ≤ N → N ≤ R → R < W → R - L < fuel →
      bisect T fuel L (median L R) R = some N := by
  intro fuel
  induction fuel with
  | zero => intro L R _ _ _ _ h; omega
  | succ fuel ih =>
    intro L R hp hLN hNR hRW hf
    have hLW : L < W := lt_of_le_of_lt (hLN.trans hNR) hRW
    have hmed := median_eq hLW hRW
    by_cases heq : L = R
    · subst heq
      have hN : N = L := le_antisymm hNR hLN
      subst hN
      simp [bisect]
    · have hLR : L < R := lt_of_le_of_ne (hLN.trans hNR) heq
      have h1 : L < median L R := by omega
      have h2 : median L R ≤ R := by omega
      simp only [bisect]
      rw [if_neg heq]
      by_cases hc : median L R ≤ N
      · have hcond : is_constructible T (median L R) = true := by
          rw [hp _ h2]
          exact decide_eq_true hc
        rw [if_pos hcond]
        exact ih (median L R) R hp hc hNR hRW (by omega)
      · have hcond : is_constructible T (median L R) = false := by
          rw [hp _ h2]
          simpa using hc
        have hsub : size_sub_one (median L R) = median L R - 1 :=
          size_sub_one_eq (by omega) (lt_of_le_of_lt h2 hRW)
        rw [if_neg (by simp [hcond]), hsub]
        exact ih L (median L R - 1) (fun k hk => hp k (by omega)) hLN
          (by omega) (by omega) (by omega)

/-- Whatever the constructibility test answers, the search with midpoint
`median L R` strictly shrinks its interval at each recursive call, so any
fuel exceeding the interval width is never exhausted. -/
lemma bisect_halts {T : CppType} :
    ∀ fuel L R, L ≤ R → R < W → R - L < fuel →
      (bisect T fuel L (median L R) R).isSome = true := by
  intro fuel
  induction fuel with
  | zero => intro L R _ _ h; omega
  | succ fuel ih =>
    intro L R hLR hRW hf
    have hLW : L < W := lt_of_le_of_lt hLR hRW
    have hmed := median_eq hLW hRW
    by_cases heq : L = R
    · simp [bisect, heq]
    · have hLR' : L < R := lt_of_le_of_ne hLR heq
      have h1 : L < median L R := by omega
      have h2 : median L R ≤ R := by omega
      simp only [bisect]
      rw [if_neg heq]
      by_cases hc : is_constructible T (median L R) = true
      · rw [if_pos hc]
        exact ih (median L R) R h2 hRW (by omega)
      · have hsub : size_sub_one (median L R) = median L R - 1 :=
          size_sub_one_eq (by omega) (lt_of_le_of_lt h2 hRW)
        rw [if_neg hc, hsub]
        exact ih L (median L R - 1) (by omega) (by omega) (by omega)

/-- Running `count_data_members` on a reflexible, language-conformant type returns
exactly the number of non-static data members. -/
lemma count_data_members_eq {T : CppType} (hT : LanguageOk T)
    (hr : reflexible T = true) :
    count_data_members T = some T.members.length := by
  unfold count_data_members
  have hsize : T.byteSize * CHAR_BIT % W = T.byteSize * CHAR_BIT :=
    Nat.mod_eq_of_lt hT.size_no_overflow
  have hdiv : T.byteSize * CHAR_BIT / T.byteSize = CHAR_BIT :=
    Nat.mul_div_cancel_left CHAR_BIT hT.size_pos
  dsimp only
  rw [hsize, if_pos hdiv]
  exact bisect_finds _ 0 _ (fun k _ => is_constructible_eq hT hr k)
    (Nat.zero_le _) (count_le_bits hT) hT.size_no_overflow (by omega)

/-- The query `data_member_count` agrees with `count_data_members` on reflexible
types. -/
lemma data_member_count_eq {T : CppType} (hT : LanguageOk T)
    (hr : reflexible T = true) :
    data_member_count T = some T.members.length := by
  unfold data_member_count
  rw [if_pos hr]
  exact count_data_members_eq hT hr

/-- Every branch of the module variant's table yields the declaration-ordered
index list for its arity. -/
lemma reflect_branches_cc_eq : ∀ n, n < 33 →
    reflect_branches_cc n = some (List.range n) := by decide

set_option maxRecDepth 8192 in
/-- Every branch of the header variant's table yields the declaration-ordered
index list for its arity. -/
lemma reflect_branches_hh_eq : ∀ n, n < 128 →
    reflect_branches_hh n = some (List.range n) := by decide

/-- The header variant's `reflect` on a reflexible type with at most 127
members yields the references to members `0, …, N-1` in declaration order. -/
lemma reflect_hh_eq {T : CppType} (hT : LanguageOk T)
    (hr : reflexible T = true) (hle : T.members.length ≤ 127)
    (x : List Value) :
    reflect_hh T x = some (List.range T.members.length) := by
  unfold reflect_hh
  rw [data_member_count_eq hT hr]
  dsimp only
  rw [if_pos hle]
  exact reflect_branches_hh_eq _ (by omega)

/-- The module variant's `reflect` on a reflexible type with at most 32
members yields the references to members `0, …, N-1` in declaration order. -/
lemma reflect_cc_eq {T : CppType} (hT : LanguageOk T)
    (hr : reflexible T = true) (hle : T.members.length ≤ 32)
    (x : List Value) :
    reflect_cc T x = some (List.range T.members.length) := by
  unfold reflect_cc
  rw [data_member_count_eq hT hr]
  dsimp only
  rw [if_pos hle]
  exact reflect_branches_cc_eq _ (by omega)

/-- Reading every member through the reference list recovers the instance. -/
lemma map_read_range (x : List Value) :
    (List.range x.length).map (read_ref x) = x := by
  apply List.ext_getElem
  · simp
  · intro i h1 h2
    simp only [List.getElem_map, List.getElem_range, read_ref]
    exact List.getD_eq_getElem x 0 h2

/-- The reference list element `i` is the index `i`. -/
lemma getD_range {n i : Nat} (hi : i < n) : (List.range n).getD i 0 = i := by
  rw [List.getD_eq_getElem _ _ (by simpa using hi), List.getElem_range]

/-! ### The claims -/

/-- C1: for every eligible (reflexible) type `T` that actually has `k`
non-static data members, with `0 ≤ k ≤ MAX_ARITY`, the compile-time query
`data_member_count<T>` — computed by `count_data_members` via binary search
over the constructibility test — evaluates to exactly `k`. -/
theorem data_member_count_exact (T : CppType) (k : Nat) (hT : LanguageOk T)
    (hr : reflexible T = true) (hk : T.members.length = k) (hmax : k ≤ 127) :
    data_member_count T = some k := by
  subst hk
  exact data_member_count_eq hT hr

/-- Witness for C1: a three-member aggregate has count 3. -/
theorem data_member_count_exact_witness : data_member_count sampleT = some 3 :=
  data_member_count_exact sampleT 3
    ⟨by decide, by decide, by decide, by decide, by decide, by decide⟩
    (by decide) (by decide) (by decide)

/-- C2: for every reflexible `T` with `data_member_count<T> = N ≤ MAX_ARITY`
and every instance `x` of `T`, `reflect(x)` returns an ordered sequence of
exactly `N` references in which element `i` refers to the storage of the
`i`-th declared non-static data member of `x`, in declaration order.  The
sequence holds member indices (references), never member values, so no
member value is copied; reading through the references in order recovers
the members in declaration order. -/
theorem reflect_ordered_references (T : CppType) (x : List Value)
    (hT : LanguageOk T) (hr : reflexible T = true)
    (hx : x.length = T.members.length) (hle : T.members.length ≤ 127) :
    ∃ refs, reflect_hh T x = some refs ∧
      refs.length = T.members.length ∧
      (∀ i, i < T.members.length → refs.getD i 0 = i) ∧
      refs.map (read_ref x) = x := by
  refine ⟨List.range T.members.length, reflect_hh_eq hT hr hle x, by simp,
    fun i hi => getD_range hi, ?_⟩
  rw [← hx]
  exact map_read_range x

/-- Witness for C2 at a three-member instance holding 10, 20, 30. -/
theorem reflect_ordered_references_witness :
    ∃ refs, reflect_hh sampleT [10, 20, 30] = some refs ∧
      refs.length = sampleT.members.length ∧
      (∀ i, i < sampleT.members.length → refs.getD i 0 = i) ∧
      refs.map (read_ref [10, 20, 30]) = [10, 20, 30] :=
  reflect_ordered_references sampleT [10, 20, 30]
    ⟨by decide, by decide, by decide, by decide, by decide, by decide⟩
    (by decide) (by decide) (by decide)

/-- C3: for every reflexible type `T` with true member count `N` and every
argument-list length `k` in `[0, upper_bound]`, the constructibility test
`is_constructible<T, k>` succeeds if and only if `k ≤ N`. -/
theorem is_constructible_iff_le_count (T : CppType) (k : Nat)
    (hT : LanguageOk T) (hr : reflexible T = true)
    (hk : k ≤ T.byteSize * CHAR_BIT) :
    is_constructible T k = true ↔ k ≤ T.members.length := by
  rw [is_constructible_eq hT hr k]
  simp

/-- Witness for C3: two probes fit a three-member aggregate. -/
theorem is_constructible_iff_le_count_witness :
    is_constructible sampleT 2 = true ↔ 2 ≤ sampleT.members.length :=
  is_constructible_iff_le_count sampleT 2
    ⟨by decide, by decide, by decide, by decide, by decide, by decide⟩
    (by decide) (by decide)

/-- C4: whenever the constructibility test is monotone on `[0, B]` with
threshold `N ≤ B` (true for every `k ≤ N` — in particular at `k = 0` — and
false beyond), the binary search `bisect<T, 0, median<0, B>, B>` terminates
(no fuel beyond the interval width is ever needed) with the interval
collapsed to a single point, returning exactly `N`, the largest `k` in
`[0, B]` for which the test succeeds. -/
theorem bisect_returns_threshold (T : CppType) (B N fuel : Nat)
    (hmono : ∀ k, k ≤ B → is_constructible T k = decide (k ≤ N))
    (hNB : N ≤ B) (hB : B < W) (hfuel : B < fuel) :
    bisect T fuel 0 (median 0 B) B = some N :=
  bisect_finds fuel 0 B hmono (Nat.zero_le N) hNB hB (by omega)

/-- Witness for C4: searching `[0, 10]` over the three-member aggregate's
test returns 3. -/
theorem bisect_returns_threshold_witness :
    bisect sampleT 11 0 (median 0 10) 10 = some 3 :=
  bisect_returns_threshold sampleT 10 3 11 (by decide) (by decide)
    (by decide) (by decide)

/-- C5: `is_reflexible(T)` holds iff `T` is an aggregate (which by the
language rules has no user-declared or inherited constructors), is
default-constructible, and is copy- or move-constructible; consequently
every type with a user-declared constructor is rejected, regardless of its
member layout. -/
theorem reflexible_iff_traits (T : CppType) (hT : LanguageOk T) :
    (reflexible T = true ↔
      T.is_aggregate = true ∧ T.default_initializable = true ∧
        (T.copy_constructible = true ∨ T.move_constructible = true)) ∧
    (T.has_user_declared_ctor = true → reflexible T = false) := by
  constructor
  · constructor
    · exact reflexible_parts
    · rintro ⟨h1, h2, h3⟩
      unfold reflexible
      rw [h1, h2]
      rcases h3 with h | h <;> simp [h]
  · intro hc
    unfold reflexible
    rw [hT.agg_no_user_ctor hc]
    rfl

/-- Witness for C5 at a type with a user-declared constructor. -/
theorem reflexible_iff_traits_witness :
    (reflexible ctorT = true ↔
      ctorT.is_aggregate = true ∧ ctorT.default_initializable = true ∧
        (ctorT.copy_constructible = true ∨ ctorT.move_constructible = true)) ∧
    (ctorT.has_user_declared_ctor = true → reflexible ctorT = false) :=
  reflexible_iff_traits ctorT
    ⟨by decide, by decide, by decide, by decide, by decide, by decide⟩

/-- C6: the binary-search upper bound computed by `count_data_members` —
the bit size `sizeof(T) * CHAR_BIT` evaluated on `size_t` — is at least the
true number of non-static data members of a reflexible type, so the search
interval `[0, bit_size]` always contains the true count. -/
theorem search_bound_contains_count (T : CppType) (hT : LanguageOk T)
    (hr : reflexible T = true) :
    T.members.length ≤ T.byteSize * CHAR_BIT % W := by
  rw [Nat.mod_eq_of_lt hT.size_no_overflow]
  exact count_le_bits hT

/-- Witness for C6: 3 members fit the 96 bits of the sample type. -/
theorem search_bound_contains_count_witness :
    sampleT.members.length ≤ sampleT.byteSize * CHAR_BIT % W :=
  search_bound_contains_count sampleT
    ⟨by decide, by decide, by decide, by decide, by decide, by decide⟩
    (by decide)

/-- C7: `reflect` on a reflexible type is accepted exactly when the member
count is at most the variant's ceiling — 127 in the header variant, 32 in
the module variant — and a count above the ceiling is a compile-time
rejection (`none`; no runtime error path exists in the model).  Below both
ceilings the two variants return identical results. -/
theorem reflect_arity_ceiling (T : CppType) (x : List Value)
    (hT : LanguageOk T) (hr : reflexible T = true) :
    ((reflect_hh T x).isSome = true ↔ T.members.length ≤ 127) ∧
    ((reflect_cc T x).isSome = true ↔ T.members.length ≤ 32) ∧
    (T.members.length ≤ 32 → reflect_cc T x = reflect_hh T x) := by
  refine ⟨?_, ?_, ?_⟩
  · by_cases h : T.members.length ≤ 127
    · rw [reflect_hh_eq hT hr h x]
      simp [h]
    · unfold reflect_hh
      rw [data_member_count_eq hT hr]
      dsimp only
      rw [if_neg h]
      simp [h]
  · by_cases h : T.members.length ≤ 32
    · rw [reflect_cc_eq hT hr h x]
      simp [h]
    · unfold reflect_cc
      rw [data_member_count_eq hT hr]
      dsimp only
      rw [if_neg h]
      simp [h]
  · intro h
    rw [reflect_cc_eq hT hr h x, reflect_hh_eq hT hr (by omega) x]

/-- Witness for C7 at a 33-member aggregate: the header variant accepts it,
the module variant rejects it. -/
theorem reflect_arity_ceiling_witness :
    ((reflect_hh wideT []).isSome = true ↔ wideT.members.length ≤ 127) ∧
    ((reflect_cc wideT []).isSome = true ↔ wideT.members.length ≤ 32) ∧
    (wideT.members.length ≤ 32 → reflect_cc wideT [] = reflect_hh wideT []) :=
  reflect_arity_ceiling wideT []
    ⟨by decide, by decide, by decide, by decide, by decide, by decide⟩
    (by decide)

/-- C8: writing a value through reference `i` of `reflect(x)` changes only
the `i`-th declared member of `x`: that member reads back as the written
value, every other member reads back unchanged, and the returned reference
sequence itself is unaffected. -/
theorem reflect_write_frame (T : CppType) (x : List Value) (i : Nat)
    (v : Value) (hT : LanguageOk T) (hr : reflexible T = true)
    (hx : x.length = T.members.length) (hle : T.members.length ≤ 127)
    (hi : i < T.members.length) :
    ∃ refs, reflect_hh T x = some refs ∧
      read_ref (write_ref x (refs.getD i 0) v) (refs.getD i 0) = v ∧
      (∀ j, j < T.members.length → j ≠ i →
        read_ref (write_ref x (refs.getD i 0) v) (refs.getD j 0) =
          read_ref x (refs.getD j 0)) ∧
      reflect_hh T (write_ref x (refs.getD i 0) v) = reflect_hh T x := by
  refine ⟨List.range T.members.length, reflect_hh_eq hT hr hle x, ?_, ?_, ?_⟩
  · rw [getD_range hi]
    unfold read_ref write_ref
    rw [List.getD_eq_getElem _ _ (by simp [List.length_set]; omega)]
    exact List.getElem_set_self _
  · intro j hj hne
    rw [getD_range hi, getD_range hj]
    unfold read_ref write_ref
    rw [List.getD_eq_getElem _ _ (by simp [List.length_set]; omega),
      List.getD_eq_getElem _ _ (by omega)]
    exact List.getElem_set_ne (fun h => hne h.symm) _
  · rw [reflect_hh_eq hT hr hle (write_ref x (List.getD (List.range T.members.length) i 0) v),
      reflect_hh_eq hT hr hle x]

/-- Witness for C8: writing 99 through reference 1 of the sample instance. -/
theorem reflect_write_frame_witness :
    ∃ refs, reflect_hh sampleT [10, 20, 30] = some refs ∧
      read_ref (write_ref [10, 20, 30] (refs.getD 1 0) 99) (refs.getD 1 0) = 99 ∧
      (∀ j, j < sampleT.members.length → j ≠ 1 →
        read_ref (write_ref [10, 20, 30] (refs.getD 1 0) 99) (refs.getD j 0) =
          read_ref [10, 20, 30] (refs.getD j 0)) ∧
      reflect_hh sampleT (write_ref [10, 20, 30] (refs.getD 1 0) 99) =
        reflect_hh sampleT [10, 20, 30] :=
  reflect_write_frame sampleT [10, 20, 30] 1 99
    ⟨by decide, by decide, by decide, by decide, by decide, by decide⟩
    (by decide) (by decide) (by decide) (by decide)

/-- C9: a reflexible type with zero non-static data members has
`data_member_count<T> = 0`, and `reflect` on an instance of it returns the
empty sequence in both variants. -/
theorem empty_aggregate_reflects_empty (T : CppType) (hT : LanguageOk T)
    (hr : reflexible T = true) (hm : T.members = []) :
    data_member_count T = some 0 ∧ reflect_hh T [] = some [] ∧
      reflect_cc T [] = some [] := by
  have h0 : T.members.length = 0 := by rw [hm]; rfl
  refine ⟨?_, ?_, ?_⟩
  · rw [data_member_count_eq hT hr, h0]
  · rw [reflect_hh_eq hT hr (by omega) [], h0]
    rfl
  · rw [reflect_cc_eq hT hr (by omega) [], h0]
    rfl

/-- Witness for C9 at the empty aggregate. -/
theorem empty_aggregate_reflects_empty_witness :
    data_member_count emptyT = some 0 ∧ reflect_hh emptyT [] = some [] ∧
      reflect_cc emptyT [] = some [] :=
  empty_aggregate_reflects_empty emptyT
    ⟨by decide, by decide, by decide, by decide, by decide, by decide⟩
    (by decide) (by decide)

/-- C10: for in-range `size_t` values `L` and `R`, `median<L, R>` equals the
ceiling of `(L + R) / 2` and is computed without wrapping even when `L + R`
exceeds the word's maximum; hence whenever `L < R`,
`L < median<L, R> ≤ R`, so each recursive call of `bisect` strictly shrinks
the search interval `[L, R]` and the recursion terminates (never exhausts a
fuel bound exceeding the interval width) on every input interval. -/
theorem median_ceiling_and_bisect_shrinks (L R : Nat) (T : CppType)
    (fuel : Nat) (hL : L < W) (hR : R < W) :
    median L R = (L + R + 1) / 2 ∧
    (L < R → L < median L R ∧ median L R ≤ R) ∧
    (L ≤ R → R - L < fuel → (bisect T fuel L (median L R) R).isSome = true) := by
  refine ⟨median_eq hL hR, ?_, ?_⟩
  · intro h
    have := median_eq hL hR
    omega
  · intro h1 h2
    exact bisect_halts fuel L R h1 hR h2

/-- Witness for C10 at `L = 3`, `R = 10`, with the sample type's test. -/
theorem median_ceiling_and_bisect_shrinks_witness :
    median 3 10 = (3 + 10 + 1) / 2 ∧
    (3 < 10 → 3 < median 3 10 ∧ median 3 10 ≤ 10) ∧
    (3 ≤ 10 → 10 - 3 < 8 → (bisect sampleT 8 3 (median 3 10) 10).isSome = true) :=
  median_ceiling_and_bisect_shrinks 3 10 sampleT 8 (by decide) (by decide)

end Mirror
